import Mathlib

/-!
# Geoflow geometry core: `Box` and the geometry collections

A shallow embedding of `src/geoflow/common.hpp`.

* The definitions are generic in the coordinate type `α` (`float` in the
  source): `Box` needs only the constant `0` and the decidable comparison
  `<` that `std::min` / `std::max` perform, `center` also `+`, `/` and `2`.
* Two coordinate types are used. `float α` adds a NaN to `α`, every
  comparison with NaN being false as in IEEE 754: what the code does on NaN
  coordinates is evaluated there. A linearly ordered field `α` stands for the
  coordinates that are not NaN; `Box.add_map_val` relates the two. Signed
  zeros, infinities and rounding are outside this model.
* `std::array<float,3>` is the three-field structure `arr3f`,
  `std::vector<T>` is `List T`.
* Member functions that mutate `*this` become functions returning the new
  state; `box()`, which both mutates the cache and returns a reference into
  it, returns the pair (returned box, new collection state).
* `size_t` arithmetic is taken modulo `2 ^ w`, `w` the width of `size_t`.
-/

namespace geoflow

/-! ## Basic types -/

/-- The type `std::array<float,3>`. -/
structure arr3f (α : Type) where
  e0 : α
  e1 : α
  e2 : α
deriving DecidableEq, Repr

/-- The type `std::vector<arr3f>`. -/
abbrev vec3f (α : Type) := List (arr3f α)

/-- Indexing `a[i]` for `i` in `{0,1,2}`. -/
def arr3f.get {α : Type} (a : arr3f α) : Fin 3 → α
  | 0 => a.e0
  | 1 => a.e1
  | 2 => a.e2

/-- The call `a.fill(v)`. -/
def arr3f.fill {α : Type} (_a : arr3f α) (v : α) : arr3f α := ⟨v, v, v⟩

/-- The function `std::min(a, b)`: returns `b` when `b < a`, else `a`. -/
def std_min {α : Type} [LT α] [DecidableRel (fun x y : α => x < y)] (a b : α) : α := if b < a then b else a

/-- The function `std::max(a, b)`: returns `b` when `a < b`, else `a`. -/
def std_max {α : Type} [LT α] [DecidableRel (fun x y : α => x < y)] (a b : α) : α := if a < b then b else a

/-! ## Coordinates with NaN -/

/-- A `float` value: NaN, or a number of `α`. -/
inductive float (α : Type) where
  | nan : float α
  | val (x : α) : float α
deriving DecidableEq, Repr

/-- The comparison `a < b` of two `float`s: false when either is NaN. -/
def float.lt {α : Type} [LT α] : float α → float α → Prop
  | .val x, .val y => x < y
  | _, _ => False

/-- The comparison `a <= b` of two `float`s: false when either is NaN. -/
def float.le {α : Type} [LE α] : float α → float α → Prop
  | .val x, .val y => x ≤ y
  | _, _ => False

instance float.instLT {α : Type} [LT α] : LT (float α) := ⟨float.lt⟩

instance float.instLE {α : Type} [LE α] : LE (float α) := ⟨float.le⟩

instance float.instZero {α : Type} [Zero α] : Zero (float α) := ⟨float.val 0⟩

instance float.decidableLT {α : Type} [LT α] [DecidableRel (fun x y : α => x < y)] :
    DecidableRel (fun a b : float α => a < b)
  | .val x, .val y => inferInstanceAs (Decidable (x < y))
  | .nan, .nan => isFalse (fun h => h)
  | .nan, .val _ => isFalse (fun h => h)
  | .val _, .nan => isFalse (fun h => h)

instance float.decidableLE {α : Type} [LE α] [DecidableRel (fun x y : α => x ≤ y)] :
    DecidableRel (fun a b : float α => a ≤ b)
  | .val x, .val y => inferInstanceAs (Decidable (x ≤ y))
  | .nan, .nan => isFalse (fun h => h)
  | .nan, .val _ => isFalse (fun h => h)
  | .val _, .nan => isFalse (fun h => h)

/-- Applying `f` to the three components. -/
def arr3f.map {α β : Type} (f : α → β) (a : arr3f α) : arr3f β := ⟨f a.e0, f a.e1, f a.e2⟩

/-! ## Box -/

/-- The class `Box`: private members `pmin`, `pmax`, `just_cleared`. -/
structure Box (α : Type) where
  pmin : arr3f α
  pmax : arr3f α
  just_cleared : Bool
deriving DecidableEq, Repr

/-- Applying `f` to every coordinate of a box. -/
def Box.map {α β : Type} (f : α → β) (b : Box α) : Box β :=
  { pmin := b.pmin.map f, pmax := b.pmax.map f, just_cleared := b.just_cleared }

section BoxOps
variable {α : Type} [Zero α] [LT α] [DecidableRel (fun x y : α => x < y)] [Add α] [Div α]
  [OfNat α 2]

/-- The method `Box::clear`. -/
def Box.clear (b : Box α) : Box α :=
  { pmin := b.pmin.fill 0, pmax := b.pmax.fill 0, just_cleared := true }

/-- The constructor `Box::Box()`: calls `clear()` on the uninitialised object;
`clear` overwrites every member, so the initial contents are irrelevant. -/
def Box.new : Box α :=
  Box.clear { pmin := ⟨0, 0, 0⟩, pmax := ⟨0, 0, 0⟩, just_cleared := false }

/-- The accessor `Box::min`. -/
def Box.min (b : Box α) : arr3f α := b.pmin

/-- The accessor `Box::max`. -/
def Box.max (b : Box α) : arr3f α := b.pmax

/-- The method `Box::set`. -/
def Box.set (_b : Box α) (nmin nmax : arr3f α) : Box α :=
  { pmin := nmin, pmax := nmax, just_cleared := false }

/-- The method `Box::add(float p[])`: the `if (just_cleared)` block, then the
six unconditional `std::min` / `std::max` assignments. -/
def Box.add (b : Box α) (p : arr3f α) : Box α :=
  let b1 : Box α :=
    if b.just_cleared then { pmin := ⟨p.e0, p.e1, p.e2⟩, pmax := ⟨p.e0, p.e1, p.e2⟩, just_cleared := false }
    else b
  { pmin := ⟨std_min p.e0 b1.pmin.e0, std_min p.e1 b1.pmin.e1, std_min p.e2 b1.pmin.e2⟩
    pmax := ⟨std_max p.e0 b1.pmax.e0, std_max p.e1 b1.pmax.e1, std_max p.e2 b1.pmax.e2⟩
    just_cleared := b1.just_cleared }

/-- The overload `Box::add(arr3f a)`: forwards to `add(a.data())`. -/
def Box.add_arr3f (b : Box α) (a : arr3f α) : Box α := b.add a

/-- The overloads `Box::add(const Box&)` and `Box::add(Box&)` (identical
bodies), for an argument that is a different object from `*this`. -/
def Box.add_Box (b otherBox : Box α) : Box α :=
  (b.add_arr3f otherBox.min).add_arr3f otherBox.max

/-- The overloads `Box::add(const Box&)` / `Box::add(Box&)` when the argument
aliases `*this` (the call `A.add(A)`): `otherBox.max()` is read after the
first `add` has already updated the object. -/
def Box.add_Box_self (b : Box α) : Box α :=
  let b1 := b.add_arr3f b.min
  b1.add_arr3f b1.max

/-- The overload `Box::add(vec3f& vec)`: `for (auto& p : vec) add(p);`. -/
def Box.add_vec3f (b : Box α) (vec : vec3f α) : Box α :=
  vec.foldl (fun acc p => acc.add_arr3f p) b

/-- The method `Box::isEmpty`. -/
def Box.isEmpty (b : Box α) : Bool := b.just_cleared

/-- The method `Box::center`. -/
def Box.center (b : Box α) : arr3f α :=
  ⟨(b.pmax.e0 + b.pmin.e0) / 2, (b.pmax.e1 + b.pmin.e1) / 2, (b.pmax.e2 + b.pmin.e2) / 2⟩

end BoxOps

/-! ## GeometryCollection -/

/-- The class template `GeometryCollection<geom_def>`: the `std::vector<geom_def>`
base sub-object (`elems`) and the protected member `std::optional<Box> bbox`. -/
structure GeometryCollection (α : Type) (geom_def : Type) where
  elems : List geom_def
  bbox : Option (Box α)
deriving DecidableEq, Repr

section Collections
variable {α : Type} [Zero α] [LT α] [DecidableRel (fun x y : α => x < y)] {geom_def : Type}

/-- The inherited `std::vector::size`. -/
def GeometryCollection.size (c : GeometryCollection α geom_def) : Nat := c.elems.length

/-- The method `GeometryCollection::box`, with the pure virtual `compute_box`
passed as an argument. Returns the dereferenced cache (`none` stands for
dereferencing an `optional` without a value) and the new state. -/
def GeometryCollection.box
    (compute_box : GeometryCollection α geom_def → GeometryCollection α geom_def)
    (c : GeometryCollection α geom_def) : Option (Box α) × GeometryCollection α geom_def :=
  let c1 := if !c.bbox.isSome then compute_box c else c
  (c1.bbox, c1)

/-- The method `GeometryCollection::dimension`. -/
def GeometryCollection.dimension (_c : GeometryCollection α geom_def) : Nat := 3

/-- Element-changing member functions inherited from the `std::vector` base. -/
inductive VectorOp (geom_def : Type) where
  | push_back (x : geom_def)
  | pop_back
  | insert (pos : Nat) (x : geom_def)
  | erase (pos : Nat)
  | clear

/-- Effect of an inherited `std::vector` member function: only the vector
sub-object changes, `bbox` is a member of the derived part. -/
def GeometryCollection.vectorOp (c : GeometryCollection α geom_def) :
    VectorOp geom_def → GeometryCollection α geom_def
  | .push_back x => { c with elems := c.elems ++ [x] }
  | .pop_back => { c with elems := c.elems.dropLast }
  | .insert pos x => { c with elems := c.elems.insertIdx pos x }
  | .erase pos => { c with elems := c.elems.eraseIdx pos }
  | .clear => { c with elems := [] }

/-- A finite sequence of inherited `std::vector` calls, applied left to right. -/
def GeometryCollection.vectorOps (c : GeometryCollection α geom_def)
    (ops : List (VectorOp geom_def)) : GeometryCollection α geom_def :=
  ops.foldl GeometryCollection.vectorOp c

/-- The type `Triangle = std::array<arr3f, 3>`. -/
structure Triangle (α : Type) where
  t0 : arr3f α
  t1 : arr3f α
  t2 : arr3f α
deriving DecidableEq, Repr

/-- The type `Segment = std::array<arr3f, 2>`. -/
structure Segment (α : Type) where
  t0 : arr3f α
  t1 : arr3f α
deriving DecidableEq, Repr

/-- Wrap-around of `size_t` arithmetic, `w` the bit width of `size_t`. -/
def size_t_wrap (w : Nat) (n : Nat) : Nat := n % 2 ^ w

/-! ### Arr3fCollection, PointCollection, LineString, LinearRing -/

/-- The class `Arr3fCollection : GeometryCollection<arr3f>`. -/
abbrev Arr3fCollection (α : Type) := GeometryCollection α (arr3f α)
/-- The class `PointCollection : Arr3fCollection` (empty body). -/
abbrev PointCollection (α : Type) := Arr3fCollection α
/-- The class `LineString : Arr3fCollection` (empty body). -/
abbrev LineString (α : Type) := Arr3fCollection α
/-- The class `LinearRing : Arr3fCollection` (empty body). -/
abbrev LinearRing (α : Type) := Arr3fCollection α

/-- The method `Arr3fCollection::vertex_count`. -/
def Arr3fCollection.vertex_count (c : Arr3fCollection α) : Nat := c.size

/-- The method `Arr3fCollection::compute_box`. -/
def Arr3fCollection.compute_box (c : Arr3fCollection α) : Arr3fCollection α :=
  if !c.bbox.isSome then { c with bbox := some ((Box.new : Box α).add_vec3f c.elems) } else c

/-- The method `box()` of an `Arr3fCollection`. -/
def Arr3fCollection.box (c : Arr3fCollection α) : Option (Box α) × Arr3fCollection α :=
  GeometryCollection.box Arr3fCollection.compute_box c

/-! ### TriangleCollection -/

/-- The class `TriangleCollection : GeometryCollection<Triangle>`. -/
abbrev TriangleCollection (α : Type) := GeometryCollection α (Triangle α)

/-- The method `TriangleCollection::vertex_count`. -/
def TriangleCollection.vertex_count (w : Nat) (c : TriangleCollection α) : Nat :=
  size_t_wrap w (c.size * 3)

/-- The method `TriangleCollection::compute_box`. -/
def TriangleCollection.compute_box (c : TriangleCollection α) : TriangleCollection α :=
  if !c.bbox.isSome then
    { c with bbox := some (c.elems.foldl
        (fun bb t => ((bb.add_arr3f t.t0).add_arr3f t.t1).add_arr3f t.t2) (Box.new : Box α)) }
  else c

/-- The method `box()` of a `TriangleCollection`. -/
def TriangleCollection.box (c : TriangleCollection α) : Option (Box α) × TriangleCollection α :=
  GeometryCollection.box TriangleCollection.compute_box c

/-! ### SegmentCollection -/

/-- The class `SegmentCollection : GeometryCollection<Segment>`. -/
abbrev SegmentCollection (α : Type) := GeometryCollection α (Segment α)

/-- The method `SegmentCollection::vertex_count`. -/
def SegmentCollection.vertex_count (w : Nat) (c : SegmentCollection α) : Nat :=
  size_t_wrap w (c.size * 2)

/-- The method `SegmentCollection::compute_box`. -/
def SegmentCollection.compute_box (c : SegmentCollection α) : SegmentCollection α :=
  if !c.bbox.isSome then
    { c with bbox := some (c.elems.foldl
        (fun bb t => (bb.add_arr3f t.t0).add_arr3f t.t1) (Box.new : Box α)) }
  else c

/-- The method `box()` of a `SegmentCollection`. -/
def SegmentCollection.box (c : SegmentCollection α) : Option (Box α) × SegmentCollection α :=
  GeometryCollection.box SegmentCollection.compute_box c

/-! ### LineStringCollection -/

/-- The class `LineStringCollection : GeometryCollection<LineString>`. -/
abbrev LineStringCollection (α : Type) := GeometryCollection α (LineString α)

/-- The method `LineStringCollection::vertex_count`. -/
def LineStringCollection.vertex_count (w : Nat) (c : LineStringCollection α) : Nat :=
  c.elems.foldl (fun result vec => size_t_wrap w (result + vec.size)) 0

/-- The method `LineStringCollection::compute_box`; `bbox->add(vec)` binds the
`LineString` to `add(vec3f&)` through its `std::vector<arr3f>` base. -/
def LineStringCollection.compute_box (c : LineStringCollection α) : LineStringCollection α :=
  if !c.bbox.isSome then
    { c with bbox := some (c.elems.foldl (fun bb vec => bb.add_vec3f vec.elems) (Box.new : Box α)) }
  else c

/-- The method `box()` of a `LineStringCollection`. -/
def LineStringCollection.box (c : LineStringCollection α) :
    Option (Box α) × LineStringCollection α :=
  GeometryCollection.box LineStringCollection.compute_box c

/-! ### LinearRingCollection -/

/-- The class `LinearRingCollection : GeometryCollection<LinearRing>`. -/
abbrev LinearRingCollection (α : Type) := GeometryCollection α (LinearRing α)

/-- The method `LinearRingCollection::vertex_count`. -/
def LinearRingCollection.vertex_count (w : Nat) (c : LinearRingCollection α) : Nat :=
  c.elems.foldl (fun result vec => size_t_wrap w (result + vec.size)) 0

/-- The method `LinearRingCollection::compute_box`. -/
def LinearRingCollection.compute_box (c : LinearRingCollection α) : LinearRingCollection α :=
  if !c.bbox.isSome then
    { c with bbox := some (c.elems.foldl (fun bb vec => bb.add_vec3f vec.elems) (Box.new : Box α)) }
  else c

/-- The method `box()` of a `LinearRingCollection`. -/
def LinearRingCollection.box (c : LinearRingCollection α) :
    Option (Box α) × LinearRingCollection α :=
  GeometryCollection.box LinearRingCollection.compute_box c

end Collections

/-! ## Reachable boxes -/

section Reach
variable {α : Type} [Zero α] [LT α] [DecidableRel (fun x y : α => x < y)] [LE α]

/-- Boxes obtained from `Box()` by finitely many calls of `add` (point,
point sequence, another reachable box, or the box itself), `clear`, and
`set` with `nmin[i] <= nmax[i]` on every axis. -/
inductive Box.Reachable : Box α → Prop where
  | new : Box.Reachable Box.new
  | add (b : Box α) (p : arr3f α) : Box.Reachable b → Box.Reachable (b.add p)
  | add_arr3f (b : Box α) (p : arr3f α) : Box.Reachable b → Box.Reachable (b.add_arr3f p)
  | add_vec3f (b : Box α) (vec : vec3f α) : Box.Reachable b → Box.Reachable (b.add_vec3f vec)
  | add_Box (b otherBox : Box α) :
      Box.Reachable b → Box.Reachable otherBox → Box.Reachable (b.add_Box otherBox)
  | add_Box_self (b : Box α) : Box.Reachable b → Box.Reachable b.add_Box_self
  | clear (b : Box α) : Box.Reachable b → Box.Reachable b.clear
  | set (b : Box α) (nmin nmax : arr3f α) :
      Box.Reachable b → (∀ i, nmin.get i ≤ nmax.get i) → Box.Reachable (b.set nmin nmax)

end Reach

/-! ## Vertices of a collection (specification side) -/

section Vertices
variable {α : Type}

/-- The three corners of a triangle. -/
def Triangle.vertices (t : Triangle α) : vec3f α := [t.t0, t.t1, t.t2]

/-- The two endpoints of a segment. -/
def Segment.vertices (t : Segment α) : vec3f α := [t.t0, t.t1]

/-- All vertices of a point collection: its elements. -/
def Arr3fCollection.vertices (c : Arr3fCollection α) : vec3f α := c.elems

/-- All vertices of a triangle collection: the corners of every triangle. -/
def TriangleCollection.vertices (c : TriangleCollection α) : vec3f α :=
  c.elems.flatMap Triangle.vertices

/-- All vertices of a segment collection: the endpoints of every segment. -/
def SegmentCollection.vertices (c : SegmentCollection α) : vec3f α :=
  c.elems.flatMap Segment.vertices

/-- All vertices of a line-string collection: every point of every sub-sequence. -/
def LineStringCollection.vertices (c : LineStringCollection α) : vec3f α :=
  c.elems.flatMap (fun vec => vec.elems)

/-- All vertices of a linear-ring collection: every point of every sub-sequence. -/
def LinearRingCollection.vertices (c : LinearRingCollection α) : vec3f α :=
  c.elems.flatMap (fun vec => vec.elems)

end Vertices

/-! ## Boxes generated by unrestricted calls, and the specified `add` -/

section Generated
variable {α : Type} [Zero α] [LT α] [DecidableRel (fun x y : α => x < y)]

/-- Boxes obtained from `Box()` by finitely many calls of `add` (point,
point sequence, another such box, or the box itself), `clear`, and `set`
with arbitrary arguments. -/
inductive Box.Generated : Box α → Prop where
  | new : Box.Generated Box.new
  | add (b : Box α) (p : arr3f α) : Box.Generated b → Box.Generated (b.add p)
  | add_arr3f (b : Box α) (p : arr3f α) : Box.Generated b → Box.Generated (b.add_arr3f p)
  | add_vec3f (b : Box α) (vec : vec3f α) : Box.Generated b → Box.Generated (b.add_vec3f vec)
  | add_Box (b otherBox : Box α) :
      Box.Generated b → Box.Generated otherBox → Box.Generated (b.add_Box otherBox)
  | add_Box_self (b : Box α) : Box.Generated b → Box.Generated b.add_Box_self
  | clear (b : Box α) : Box.Generated b → Box.Generated b.clear
  | set (b : Box α) (nmin nmax : arr3f α) : Box.Generated b → Box.Generated (b.set nmin nmax)

end Generated

section AddSpec
variable {α : Type} [LinearOrderedField α]

/-- The specified `add(point)`, in the specification's words: if empty, set
min = max = point and clear emptiness; else expand min and max per axis by the
elementwise minimum and maximum. -/
def Box.add_spec (b : Box α) (p : arr3f α) : Box α :=
  if b.isEmpty then { pmin := p, pmax := p, just_cleared := false }
  else
    { pmin := ⟨Min.min p.e0 b.pmin.e0, Min.min p.e1 b.pmin.e1, Min.min p.e2 b.pmin.e2⟩
      pmax := ⟨Max.max p.e0 b.pmax.e0, Max.max p.e1 b.pmax.e1, Max.max p.e2 b.pmax.e2⟩
      just_cleared := b.just_cleared }

end AddSpec

/-! ## Facts about `Box` -/

theorem arr3f.ext_get {α : Type} {a b : arr3f α} (h : ∀ i, a.get i = b.get i) : a = b := by
  cases a; cases b
  have h0 := h 0
  have h1 := h 1
  have h2 := h 2
  simp only [arr3f.get] at h0 h1 h2
  simp [h0, h1, h2]

theorem Box.eq_of_get {α : Type} {a b : Box α} (hmin : ∀ i, a.pmin.get i = b.pmin.get i)
    (hmax : ∀ i, a.pmax.get i = b.pmax.get i) (hc : a.just_cleared = b.just_cleared) : a = b := by
  cases a; cases b
  simp only [Box.mk.injEq]
  exact ⟨arr3f.ext_get hmin, arr3f.ext_get hmax, hc⟩

theorem arr3f.map_get {α β : Type} (f : α → β) (a : arr3f α) (i : Fin 3) :
    (a.map f).get i = f (a.get i) := by
  fin_cases i <;> rfl

/-! ### Facts that hold for every coordinate type -/

section AnyCoordinateFacts
variable {α : Type} [LT α] [DecidableRel (fun x y : α => x < y)]

theorem std_min_self (a : α) : std_min a a = a := by
  unfold std_min
  exact ite_self a

theorem std_max_self (a : α) : std_max a a = a := by
  unfold std_max
  exact ite_self a

theorem std_min_idem (p m : α) : std_min p (std_min p m) = std_min p m := by
  unfold std_min
  by_cases h : m < p
  · simp [h]
  · simp [h]

theorem std_max_idem (p m : α) : std_max p (std_max p m) = std_max p m := by
  unfold std_max
  by_cases h : p < m
  · simp [h]
  · simp [h]

theorem Box.add_not_cleared_any (b : Box α) (p : arr3f α) :
    (b.add p).just_cleared = false := by
  unfold Box.add
  cases h : b.just_cleared <;> simp [h]

theorem Box.add_cleared_any (b : Box α) (p : arr3f α) (h : b.just_cleared = true) :
    b.add p = { pmin := p, pmax := p, just_cleared := false } := by
  cases p
  simp [Box.add, h, std_min_self, std_max_self]

theorem Box.add_pmin_get_any (b : Box α) (p : arr3f α) (h : b.just_cleared = false)
    (i : Fin 3) : (b.add p).pmin.get i = std_min (p.get i) (b.pmin.get i) := by
  fin_cases i <;> simp [Box.add, h, arr3f.get]

theorem Box.add_pmax_get_any (b : Box α) (p : arr3f α) (h : b.just_cleared = false)
    (i : Fin 3) : (b.add p).pmax.get i = std_max (p.get i) (b.pmax.get i) := by
  fin_cases i <;> simp [Box.add, h, arr3f.get]

/-- Adding the same point a second time changes nothing, whatever the
comparison `<` does. -/
theorem Box.add_add_same_any (b : Box α) (p : arr3f α) : (b.add p).add p = b.add p := by
  have hp := Box.add_not_cleared_any b p
  apply Box.eq_of_get
  · intro i
    rw [Box.add_pmin_get_any _ p hp]
    cases hc : b.just_cleared with
    | true => rw [Box.add_cleared_any b p hc]; exact std_min_self _
    | false => rw [Box.add_pmin_get_any b p hc]; exact std_min_idem _ _
  · intro i
    rw [Box.add_pmax_get_any _ p hp]
    cases hc : b.just_cleared with
    | true => rw [Box.add_cleared_any b p hc]; exact std_max_self _
    | false => rw [Box.add_pmax_get_any b p hc]; exact std_max_idem _ _
  · rw [Box.add_not_cleared_any, Box.add_not_cleared_any]

theorem Box.add_vec3f_nil (b : Box α) : b.add_vec3f [] = b := rfl

theorem Box.add_vec3f_cons (b : Box α) (p : arr3f α) (ps : vec3f α) :
    b.add_vec3f (p :: ps) = (b.add p).add_vec3f ps := rfl

theorem Box.add_vec3f_append (b : Box α) (ps qs : vec3f α) :
    b.add_vec3f (ps ++ qs) = (b.add_vec3f ps).add_vec3f qs := by
  simp [Box.add_vec3f, List.foldl_append]

theorem Box.foldl_add_vec3f {T : Type} (f : T → vec3f α) (l : List T) (b : Box α) :
    l.foldl (fun bb t => bb.add_vec3f (f t)) b = b.add_vec3f (l.flatMap f) := by
  induction l generalizing b with
  | nil => rfl
  | cons t l ih => rw [List.foldl_cons, ih, List.flatMap_cons, Box.add_vec3f_append]

end AnyCoordinateFacts

section BoxFacts
variable {α : Type} [LinearOrderedField α]

theorem std_min_eq_min (a b : α) : std_min a b = Min.min a b := by
  unfold std_min
  rcases lt_or_le b a with h | h
  · rw [if_pos h, min_eq_right h.le]
  · rw [if_neg (not_lt.mpr h), min_eq_left h]

theorem std_max_eq_max (a b : α) : std_max a b = Max.max a b := by
  unfold std_max
  rcases lt_or_le a b with h | h
  · rw [if_pos h, max_eq_right h.le]
  · rw [if_neg (not_lt.mpr h), max_eq_left h]

theorem Box.add_just_cleared (b : Box α) (p : arr3f α) : (b.add p).just_cleared = false := by
  unfold Box.add
  cases h : b.just_cleared <;> simp [h]

theorem Box.add_of_cleared (b : Box α) (p : arr3f α) (h : b.just_cleared = true) :
    b.add p = { pmin := p, pmax := p, just_cleared := false } := by
  cases p
  simp [Box.add, h, std_min_eq_min, std_max_eq_max]

theorem Box.add_pmin_get (b : Box α) (p : arr3f α) (h : b.just_cleared = false) (i : Fin 3) :
    (b.add p).pmin.get i = Min.min (p.get i) (b.pmin.get i) := by
  fin_cases i <;> simp [Box.add, h, std_min_eq_min, arr3f.get]

theorem Box.add_pmax_get (b : Box α) (p : arr3f α) (h : b.just_cleared = false) (i : Fin 3) :
    (b.add p).pmax.get i = Max.max (p.get i) (b.pmax.get i) := by
  fin_cases i <;> simp [Box.add, h, std_max_eq_max, arr3f.get]

theorem Box.add_vec3f_just_cleared (b : Box α) (ps : vec3f α) (h : b.just_cleared = false) :
    (b.add_vec3f ps).just_cleared = false := by
  induction ps generalizing b with
  | nil => exact h
  | cons p ps ih => exact ih (b.add p) (Box.add_just_cleared b p)

theorem Box.add_vec3f_just_cleared_of_ne_nil (b : Box α) (ps : vec3f α) (h : ps ≠ []) :
    (b.add_vec3f ps).just_cleared = false := by
  cases ps with
  | nil => exact absurd rfl h
  | cons p ps => exact Box.add_vec3f_just_cleared _ ps (Box.add_just_cleared b p)

/-- Folding into a non-empty box: lower bound is the minimum of the old lower
bound and the coordinates of the added points. -/
theorem Box.add_vec3f_pmin_get (b : Box α) (ps : vec3f α) (h : b.just_cleared = false)
    (i : Fin 3) :
    (((b.add_vec3f ps).pmin.get i : α) : WithTop α)
      = Min.min ((b.pmin.get i : α) : WithTop α) (ps.map (fun p => p.get i)).minimum := by
  induction ps generalizing b with
  | nil => simp [Box.add_vec3f_nil]
  | cons p ps ih =>
    rw [Box.add_vec3f_cons, ih (b.add p) (Box.add_just_cleared b p), Box.add_pmin_get b p h,
      List.map_cons, List.minimum_cons, WithTop.coe_min, min_comm (p.get i : WithTop α), min_assoc]

/-- Folding into a non-empty box: upper bound is the maximum of the old upper
bound and the coordinates of the added points. -/
theorem Box.add_vec3f_pmax_get (b : Box α) (ps : vec3f α) (h : b.just_cleared = false)
    (i : Fin 3) :
    (((b.add_vec3f ps).pmax.get i : α) : WithBot α)
      = Max.max ((b.pmax.get i : α) : WithBot α) (ps.map (fun p => p.get i)).maximum := by
  induction ps generalizing b with
  | nil => simp [Box.add_vec3f_nil]
  | cons p ps ih =>
    rw [Box.add_vec3f_cons, ih (b.add p) (Box.add_just_cleared b p), Box.add_pmax_get b p h,
      List.map_cons, List.maximum_cons, WithBot.coe_max, max_comm (p.get i : WithBot α), max_assoc]

theorem Box.new_just_cleared : (Box.new : Box α).just_cleared = true := rfl

/-- Folding a point list into an empty box. -/
theorem Box.add_vec3f_of_cleared_pmin (b : Box α) (ps : vec3f α) (h : b.just_cleared = true)
    (hps : ps ≠ []) (i : Fin 3) :
    (((b.add_vec3f ps).pmin.get i : α) : WithTop α) = (ps.map (fun p => p.get i)).minimum := by
  cases ps with
  | nil => exact absurd rfl hps
  | cons p ps =>
    rw [Box.add_vec3f_cons, Box.add_vec3f_pmin_get _ _ (Box.add_just_cleared b p),
      Box.add_of_cleared b p h, List.map_cons, List.minimum_cons]

theorem Box.add_vec3f_of_cleared_pmax (b : Box α) (ps : vec3f α) (h : b.just_cleared = true)
    (hps : ps ≠ []) (i : Fin 3) :
    (((b.add_vec3f ps).pmax.get i : α) : WithBot α) = (ps.map (fun p => p.get i)).maximum := by
  cases ps with
  | nil => exact absurd rfl hps
  | cons p ps =>
    rw [Box.add_vec3f_cons, Box.add_vec3f_pmax_get _ _ (Box.add_just_cleared b p),
      Box.add_of_cleared b p h, List.map_cons, List.maximum_cons]

theorem Box.add_pmin_le_pmax (b : Box α) (p : arr3f α)
    (h : b.just_cleared = false → ∀ i, b.pmin.get i ≤ b.pmax.get i) (i : Fin 3) :
    (b.add p).pmin.get i ≤ (b.add p).pmax.get i := by
  cases hc : b.just_cleared with
  | true => rw [Box.add_of_cleared b p hc]
  | false =>
    rw [Box.add_pmin_get b p hc, Box.add_pmax_get b p hc]
    exact le_trans (min_le_right _ _) (le_trans (h hc i) (le_max_right _ _))

theorem Box.add_vec3f_pmin_le_pmax (b : Box α) (ps : vec3f α)
    (h : b.just_cleared = false → ∀ i, b.pmin.get i ≤ b.pmax.get i)
    (hne : (b.add_vec3f ps).just_cleared = false) (i : Fin 3) :
    (b.add_vec3f ps).pmin.get i ≤ (b.add_vec3f ps).pmax.get i := by
  induction ps generalizing b with
  | nil => exact h hne i
  | cons p ps ih =>
    exact ih (b.add p) (fun _ => Box.add_pmin_le_pmax b p h) hne

/-- Every reachable box, empty or not, has `pmin[i] <= pmax[i]`. -/
theorem Box.Reachable.pmin_le_pmax {b : Box α} (hb : b.Reachable) :
    ∀ i, b.pmin.get i ≤ b.pmax.get i := by
  induction hb with
  | new => intro i; fin_cases i <;> simp [Box.new, Box.clear, arr3f.fill, arr3f.get]
  | add b p _ ih => exact Box.add_pmin_le_pmax b p (fun _ => ih)
  | add_arr3f b p _ ih => exact Box.add_pmin_le_pmax b p (fun _ => ih)
  | add_vec3f b vec _ ih =>
    intro i
    cases hc : (b.add_vec3f vec).just_cleared with
    | false => exact Box.add_vec3f_pmin_le_pmax b vec (fun _ => ih) hc i
    | true =>
      cases vec with
      | nil => exact ih i
      | cons p ps =>
        rw [Box.add_vec3f_just_cleared_of_ne_nil b (p :: ps) (List.cons_ne_nil _ _)] at hc
        exact absurd hc (by simp)
  | add_Box b o _ _ ih _ =>
    exact Box.add_pmin_le_pmax _ _ (fun _ => Box.add_pmin_le_pmax b _ (fun _ => ih))
  | add_Box_self b _ ih =>
    exact Box.add_pmin_le_pmax _ _ (fun _ => Box.add_pmin_le_pmax b _ (fun _ => ih))
  | clear b _ _ => intro i; fin_cases i <;> simp [Box.clear, arr3f.fill, arr3f.get]
  | set b nmin nmax _ hle _ => exact hle


theorem Box.add_vec3f_reachable (ps : vec3f α) : ((Box.new : Box α).add_vec3f ps).Reachable :=
  Box.Reachable.add_vec3f _ ps Box.Reachable.new

/-- Lower bound after folding a non-empty point list into any box. -/
theorem Box.add_vec3f_pmin_coe (b : Box α) (ps : vec3f α) (hps : ps ≠ []) (i : Fin 3) :
    (((b.add_vec3f ps).pmin.get i : α) : WithTop α)
      = if b.just_cleared then (ps.map (fun p => p.get i)).minimum
        else Min.min ((b.pmin.get i : α) : WithTop α) (ps.map (fun p => p.get i)).minimum := by
  cases hc : b.just_cleared with
  | true => simpa using Box.add_vec3f_of_cleared_pmin b ps hc hps i
  | false => simpa using Box.add_vec3f_pmin_get b ps hc i

/-- Upper bound after folding a non-empty point list into any box. -/
theorem Box.add_vec3f_pmax_coe (b : Box α) (ps : vec3f α) (hps : ps ≠ []) (i : Fin 3) :
    (((b.add_vec3f ps).pmax.get i : α) : WithBot α)
      = if b.just_cleared then (ps.map (fun p => p.get i)).maximum
        else Max.max ((b.pmax.get i : α) : WithBot α) (ps.map (fun p => p.get i)).maximum := by
  cases hc : b.just_cleared with
  | true => simpa using Box.add_vec3f_of_cleared_pmax b ps hc hps i
  | false => simpa using Box.add_vec3f_pmax_get b ps hc i

theorem Box.add_Box_eq_add_vec3f (b o : Box α) : b.add_Box o = b.add_vec3f [o.pmin, o.pmax] := rfl

/-- Merging is exact when the argument box was built from at least one point:
`A.add(B)` is then the box built from all the points of `Pa` and `Pb`. -/
theorem Box.add_Box_of_nonempty_argument (Pa Pb : vec3f α) (hb : Pb ≠ []) :
    ((Box.new : Box α).add_vec3f Pa).add_Box ((Box.new : Box α).add_vec3f Pb)
      = (Box.new : Box α).add_vec3f (Pa ++ Pb) := by
  have hBmin := fun i => Box.add_vec3f_of_cleared_pmin (Box.new : Box α) Pb rfl hb i
  have hBmax := fun i => Box.add_vec3f_of_cleared_pmax (Box.new : Box α) Pb rfl hb i
  have hle := Box.Reachable.pmin_le_pmax (Box.add_vec3f_reachable (α := α) Pb)
  rw [Box.add_vec3f_append, Box.add_Box_eq_add_vec3f]
  generalize (Box.new : Box α).add_vec3f Pa = A
  generalize (Box.new : Box α).add_vec3f Pb = B at hBmin hBmax hle
  have h1 : (A.add_vec3f [B.pmin, B.pmax]).just_cleared = (A.add_vec3f Pb).just_cleared := by
    rw [Box.add_vec3f_just_cleared_of_ne_nil A _ (List.cons_ne_nil _ _),
      Box.add_vec3f_just_cleared_of_ne_nil A _ hb]
  have h2 : (A.add_vec3f [B.pmin, B.pmax]).pmin = (A.add_vec3f Pb).pmin := by
    apply arr3f.ext_get
    intro i
    apply WithTop.coe_injective
    rw [Box.add_vec3f_pmin_coe A _ (List.cons_ne_nil _ _) i, Box.add_vec3f_pmin_coe A _ hb i,
      ← hBmin i]
    have : ([B.pmin, B.pmax].map (fun p => p.get i)).minimum = ((B.pmin.get i : α) : WithTop α) := by
      simp [List.minimum_cons, hle i]
    rw [this]
  have h3 : (A.add_vec3f [B.pmin, B.pmax]).pmax = (A.add_vec3f Pb).pmax := by
    apply arr3f.ext_get
    intro i
    apply WithBot.coe_injective
    rw [Box.add_vec3f_pmax_coe A _ (List.cons_ne_nil _ _) i, Box.add_vec3f_pmax_coe A _ hb i,
      ← hBmax i]
    have : ([B.pmin, B.pmax].map (fun p => p.get i)).maximum = ((B.pmax.get i : α) : WithBot α) := by
      simp [List.maximum_cons, hle i]
    rw [this]
  revert h1 h2 h3
  cases A.add_vec3f [B.pmin, B.pmax]
  cases A.add_vec3f Pb
  simp only [Box.mk.injEq]
  intro h1 h2 h3
  exact ⟨h2, h3, h1⟩

theorem Box.add_of_not_cleared (b : Box α) (p : arr3f α) (h : b.just_cleared = false) :
    b.add p
      = { pmin := ⟨Min.min p.e0 b.pmin.e0, Min.min p.e1 b.pmin.e1, Min.min p.e2 b.pmin.e2⟩
          pmax := ⟨Max.max p.e0 b.pmax.e0, Max.max p.e1 b.pmax.e1, Max.max p.e2 b.pmax.e2⟩
          just_cleared := false } := by
  simp [Box.add, h, std_min_eq_min, std_max_eq_max]

/-- A generated box that is empty is the zeroed box of the constructor. -/
theorem Box.Generated.eq_new_of_cleared {b : Box α} (hb : b.Generated)
    (h : b.just_cleared = true) : b = Box.new := by
  induction hb with
  | new => rfl
  | add b p _ _ => rw [Box.add_just_cleared] at h; exact absurd h (by simp)
  | add_arr3f b p _ _ =>
    rw [Box.add_arr3f, Box.add_just_cleared] at h; exact absurd h (by simp)
  | add_vec3f b vec _ ih =>
    cases vec with
    | nil => exact ih h
    | cons p ps =>
      rw [Box.add_vec3f_just_cleared_of_ne_nil b (p :: ps) (List.cons_ne_nil _ _)] at h
      exact absurd h (by simp)
  | add_Box b o _ _ _ _ =>
    rw [Box.add_Box, Box.add_arr3f, Box.add_just_cleared] at h; exact absurd h (by simp)
  | add_Box_self b _ _ =>
    simp only [Box.add_Box_self, Box.add_arr3f] at h
    rw [Box.add_just_cleared] at h; exact absurd h (by simp)
  | clear b _ _ => rfl
  | set b nmin nmax _ _ => exact absurd h (by simp [Box.set])

theorem Box.add_comm_add (b : Box α) (p q : arr3f α) : (b.add p).add q = (b.add q).add p := by
  have hp := Box.add_just_cleared b p
  have hq := Box.add_just_cleared b q
  apply Box.eq_of_get
  · intro i
    rw [Box.add_pmin_get _ q hp, Box.add_pmin_get _ p hq]
    cases hc : b.just_cleared with
    | true => rw [Box.add_of_cleared b p hc, Box.add_of_cleared b q hc]; exact min_comm _ _
    | false => rw [Box.add_pmin_get b p hc, Box.add_pmin_get b q hc]; exact min_left_comm _ _ _
  · intro i
    rw [Box.add_pmax_get _ q hp, Box.add_pmax_get _ p hq]
    cases hc : b.just_cleared with
    | true => rw [Box.add_of_cleared b p hc, Box.add_of_cleared b q hc]; exact max_comm _ _
    | false => rw [Box.add_pmax_get b p hc, Box.add_pmax_get b q hc]; exact max_left_comm _ _ _
  · rw [Box.add_just_cleared, Box.add_just_cleared]

theorem Box.add_pmin_le (b : Box α) (p : arr3f α) (i : Fin 3) :
    (b.add p).pmin.get i ≤ p.get i := by
  cases hc : b.just_cleared with
  | true => rw [Box.add_of_cleared b p hc]
  | false => rw [Box.add_pmin_get b p hc]; exact min_le_left _ _

theorem Box.le_add_pmax (b : Box α) (p : arr3f α) (i : Fin 3) :
    p.get i ≤ (b.add p).pmax.get i := by
  cases hc : b.just_cleared with
  | true => rw [Box.add_of_cleared b p hc]
  | false => rw [Box.add_pmax_get b p hc]; exact le_max_left _ _

theorem Box.add_add_same (b : Box α) (p : arr3f α) : (b.add p).add p = b.add p := by
  have hp := Box.add_just_cleared b p
  apply Box.eq_of_get
  · intro i
    rw [Box.add_pmin_get _ p hp]
    exact min_eq_right (Box.add_pmin_le b p i)
  · intro i
    rw [Box.add_pmax_get _ p hp]
    exact max_eq_right (Box.le_add_pmax b p i)
  · rw [Box.add_just_cleared, Box.add_just_cleared]

theorem std_min_val (a b : α) :
    std_min (float.val a) (float.val b) = float.val (std_min a b) := by
  unfold std_min
  by_cases h : b < a
  · rw [if_pos h, if_pos (show float.val b < float.val a from h)]
  · rw [if_neg h, if_neg (show ¬ float.val b < float.val a from h)]

theorem std_max_val (a b : α) :
    std_max (float.val a) (float.val b) = float.val (std_max a b) := by
  unfold std_max
  by_cases h : a < b
  · rw [if_pos h, if_pos (show float.val a < float.val b from h)]
  · rw [if_neg h, if_neg (show ¬ float.val a < float.val b from h)]

/-- On coordinates that are not NaN the code computes, in the `float` model,
what it computes in the ordered field. -/
theorem Box.add_map_val (b : Box α) (p : arr3f α) :
    (b.map float.val).add (p.map float.val) = (b.add p).map float.val := by
  cases hc : b.just_cleared <;>
    simp [Box.add, Box.map, arr3f.map, hc, std_min_val, std_max_val]

theorem Box.new_map_val : (Box.new : Box α).map float.val = (Box.new : Box (float α)) := rfl

theorem Box.add_vec3f_map_val (b : Box α) (ps : vec3f α) :
    (b.map float.val).add_vec3f (ps.map (arr3f.map float.val))
      = (b.add_vec3f ps).map float.val := by
  induction ps generalizing b with
  | nil => rfl
  | cons p ps ih =>
    show ((b.map float.val).add (p.map float.val)).add_vec3f (ps.map (arr3f.map float.val)) = _
    rw [Box.add_map_val, ih]
    rfl

/-! ### Points without NaN added to an arbitrary `float` box -/

theorem std_min_val_nan (x : α) : std_min (float.val x) float.nan = float.val x := by
  unfold std_min
  exact if_neg (fun h => h)

theorem std_max_val_nan (x : α) : std_max (float.val x) float.nan = float.val x := by
  unfold std_max
  exact if_neg (fun h => h)

theorem std_min_val_left_comm (p q : α) (m : float α) :
    std_min (float.val q) (std_min (float.val p) m)
      = std_min (float.val p) (std_min (float.val q) m) := by
  cases m with
  | nan =>
    rw [std_min_val_nan, std_min_val_nan, std_min_val, std_min_val, std_min_eq_min,
      std_min_eq_min, min_comm]
  | val x =>
    rw [std_min_val, std_min_val, std_min_val, std_min_val, std_min_eq_min, std_min_eq_min,
      std_min_eq_min, std_min_eq_min, min_left_comm]

theorem std_max_val_left_comm (p q : α) (m : float α) :
    std_max (float.val q) (std_max (float.val p) m)
      = std_max (float.val p) (std_max (float.val q) m) := by
  cases m with
  | nan =>
    rw [std_max_val_nan, std_max_val_nan, std_max_val, std_max_val, std_max_eq_max,
      std_max_eq_max, max_comm]
  | val x =>
    rw [std_max_val, std_max_val, std_max_val, std_max_val, std_max_eq_max, std_max_eq_max,
      std_max_eq_max, std_max_eq_max, max_left_comm]

theorem float.val_le_val (x y : α) : float.val x ≤ float.val y ↔ x ≤ y := Iff.rfl

theorem std_min_val_le (x : α) (m : float α) : std_min (float.val x) m ≤ float.val x := by
  cases m with
  | nan => rw [std_min_val_nan]; exact (float.val_le_val x x).mpr le_rfl
  | val a =>
    rw [std_min_val, std_min_eq_min]
    exact (float.val_le_val _ _).mpr (min_le_left _ _)

theorem le_std_max_val (x : α) (m : float α) : float.val x ≤ std_max (float.val x) m := by
  cases m with
  | nan => rw [std_max_val_nan]; exact (float.val_le_val x x).mpr le_rfl
  | val a =>
    rw [std_max_val, std_max_eq_max]
    exact (float.val_le_val _ _).mpr (le_max_left _ _)

theorem std_min_val_le_of_le (x : α) (m v : float α) (h : m ≤ v) :
    std_min (float.val x) m ≤ v := by
  cases m with
  | nan => exact absurd h (fun h => h)
  | val a =>
    cases v with
    | nan => exact absurd h (fun h => h)
    | val y =>
      rw [std_min_val, std_min_eq_min]
      exact (float.val_le_val _ _).mpr (le_trans (min_le_right _ _) ((float.val_le_val a y).mp h))

theorem le_std_max_val_of_le (x : α) (m v : float α) (h : v ≤ m) :
    v ≤ std_max (float.val x) m := by
  cases m with
  | nan => cases v <;> exact absurd h (fun h => h)
  | val a =>
    cases v with
    | nan => exact absurd h (fun h => h)
    | val y =>
      rw [std_max_val, std_max_eq_max]
      exact (float.val_le_val _ _).mpr (le_trans ((float.val_le_val y a).mp h) (le_max_right _ _))

/-- Two points without NaN can be added in either order to any `float` box,
also one that is empty or has NaN bounds. -/
theorem Box.add_comm_add_float (b : Box (float α)) (p q : arr3f α) :
    (b.add (p.map float.val)).add (q.map float.val)
      = (b.add (q.map float.val)).add (p.map float.val) := by
  have hp := Box.add_not_cleared_any b (p.map float.val)
  have hq := Box.add_not_cleared_any b (q.map float.val)
  apply Box.eq_of_get
  · intro i
    rw [Box.add_pmin_get_any _ _ hp, Box.add_pmin_get_any _ _ hq]
    cases hc : b.just_cleared with
    | true =>
      rw [Box.add_cleared_any b _ hc, Box.add_cleared_any b _ hc, arr3f.map_get, arr3f.map_get,
        std_min_val, std_min_val, std_min_eq_min, std_min_eq_min, min_comm]
    | false =>
      rw [Box.add_pmin_get_any b _ hc, Box.add_pmin_get_any b _ hc, arr3f.map_get, arr3f.map_get]
      exact std_min_val_left_comm _ _ _
  · intro i
    rw [Box.add_pmax_get_any _ _ hp, Box.add_pmax_get_any _ _ hq]
    cases hc : b.just_cleared with
    | true =>
      rw [Box.add_cleared_any b _ hc, Box.add_cleared_any b _ hc, arr3f.map_get, arr3f.map_get,
        std_max_val, std_max_val, std_max_eq_max, std_max_eq_max, max_comm]
    | false =>
      rw [Box.add_pmax_get_any b _ hc, Box.add_pmax_get_any b _ hc, arr3f.map_get, arr3f.map_get]
      exact std_max_val_left_comm _ _ _
  · rw [Box.add_not_cleared_any, Box.add_not_cleared_any]

theorem Box.add_vec3f_perm_float (b : Box (float α)) (P Q : vec3f α) (h : P.Perm Q) :
    b.add_vec3f (P.map (arr3f.map float.val)) = b.add_vec3f (Q.map (arr3f.map float.val)) := by
  have key : ∀ (l : vec3f α) (c : Box (float α)),
      c.add_vec3f (l.map (arr3f.map float.val))
        = l.foldl (fun acc x => acc.add (x.map float.val)) c := by
    intro l c
    unfold Box.add_vec3f
    rw [List.foldl_map]
    rfl
  rw [key, key]
  exact h.foldl_eq' (fun x _ y _ z => Box.add_comm_add_float z x y) b

/-- A point without NaN lies in any `float` box after it was added. -/
theorem Box.add_contains_float (b : Box (float α)) (p : arr3f α) (i : Fin 3) :
    (b.add (p.map float.val)).pmin.get i ≤ (p.map float.val).get i ∧
      (p.map float.val).get i ≤ (b.add (p.map float.val)).pmax.get i := by
  cases hc : b.just_cleared with
  | true =>
    rw [Box.add_cleared_any b _ hc, arr3f.map_get]
    exact ⟨(float.val_le_val _ _).mpr le_rfl, (float.val_le_val _ _).mpr le_rfl⟩
  | false =>
    rw [Box.add_pmin_get_any b _ hc, Box.add_pmax_get_any b _ hc, arr3f.map_get]
    exact ⟨std_min_val_le _ _, le_std_max_val _ _⟩

/-- A point inside a non-empty `float` box is still inside after a point
without NaN was added. -/
theorem Box.add_keeps_inside_float (b : Box (float α)) (p : arr3f α)
    (hc : b.just_cleared = false) (q : arr3f (float α)) (i : Fin 3)
    (hq : b.pmin.get i ≤ q.get i ∧ q.get i ≤ b.pmax.get i) :
    (b.add (p.map float.val)).pmin.get i ≤ q.get i ∧
      q.get i ≤ (b.add (p.map float.val)).pmax.get i := by
  rw [Box.add_pmin_get_any b _ hc, Box.add_pmax_get_any b _ hc, arr3f.map_get]
  exact ⟨std_min_val_le_of_le _ _ _ hq.1, le_std_max_val_of_le _ _ _ hq.2⟩

/-- A box reachable with coordinates of the ordered field is, read as a
`float` box, reachable by the same calls on points without NaN. -/
theorem Box.Reachable.map_val {b : Box α} (hb : b.Reachable) :
    (b.map float.val).Reachable := by
  induction hb with
  | new => exact Box.Reachable.new
  | add b p _ ih => rw [← Box.add_map_val]; exact Box.Reachable.add _ _ ih
  | add_arr3f b p _ ih =>
    rw [Box.add_arr3f, ← Box.add_map_val]; exact Box.Reachable.add _ _ ih
  | add_vec3f b vec _ ih =>
    rw [← Box.add_vec3f_map_val]; exact Box.Reachable.add_vec3f _ _ ih
  | add_Box b o _ _ ihb iho =>
    have : (b.add_Box o).map float.val = (b.map float.val).add_Box (o.map float.val) := by
      simp only [Box.add_Box, Box.add_arr3f]
      rw [← Box.add_map_val, ← Box.add_map_val]
      rfl
    rw [this]; exact Box.Reachable.add_Box _ _ ihb iho
  | add_Box_self b _ ih =>
    have h1 : (b.map float.val).add (b.map float.val).min = (b.add b.min).map float.val :=
      Box.add_map_val b b.min
    have : b.add_Box_self.map float.val = (b.map float.val).add_Box_self := by
      show ((b.add b.min).add (b.add b.min).max).map float.val
        = ((b.map float.val).add (b.map float.val).min).add
            ((b.map float.val).add (b.map float.val).min).max
      rw [h1]
      exact (Box.add_map_val (b.add b.min) (b.add b.min).max).symm
    rw [this]; exact Box.Reachable.add_Box_self _ ih
  | clear b _ ih => exact Box.Reachable.clear _ ih
  | set b nmin nmax _ hle ih =>
    refine Box.Reachable.set (b.map float.val) (nmin.map float.val) (nmax.map float.val) ih ?_
    intro i
    rw [arr3f.map_get, arr3f.map_get]
    exact (float.val_le_val _ _).mpr (hle i)

end BoxFacts

/-! ## Facts about the collections -/

section GenericCollectionFacts
variable {α : Type} {geom_def : Type}

theorem GeometryCollection.box_of_some
    (cb : GeometryCollection α geom_def → GeometryCollection α geom_def)
    (c : GeometryCollection α geom_def) (b : Box α) (h : c.bbox = some b) :
    GeometryCollection.box cb c = (some b, c) := by
  simp [GeometryCollection.box, h]

theorem GeometryCollection.box_of_none
    (cb : GeometryCollection α geom_def → GeometryCollection α geom_def)
    (c : GeometryCollection α geom_def) (h : c.bbox = none) :
    GeometryCollection.box cb c = ((cb c).bbox, cb c) := by
  simp [GeometryCollection.box, h]

theorem GeometryCollection.vectorOp_bbox (c : GeometryCollection α geom_def)
    (op : VectorOp geom_def) : (c.vectorOp op).bbox = c.bbox := by
  cases op <;> rfl

theorem GeometryCollection.vectorOps_bbox (c : GeometryCollection α geom_def)
    (ops : List (VectorOp geom_def)) : (c.vectorOps ops).bbox = c.bbox := by
  induction ops generalizing c with
  | nil => rfl
  | cons op ops ih =>
    exact (ih (c.vectorOp op)).trans (GeometryCollection.vectorOp_bbox c op)

/-- A `box()` call always returns a box `b` and leaves it in the cache. -/
theorem GeometryCollection.box_returns
    (cb : GeometryCollection α geom_def → GeometryCollection α geom_def)
    (hcb : ∀ c, c.bbox = none → ∃ b, (cb c).bbox = some b)
    (c : GeometryCollection α geom_def) :
    ∃ b, (GeometryCollection.box cb c).1 = some b ∧ (GeometryCollection.box cb c).2.bbox = some b := by
  cases h : c.bbox with
  | none =>
    obtain ⟨b, hb⟩ := hcb c h
    exact ⟨b, by rw [GeometryCollection.box_of_none cb c h]; exact ⟨hb, hb⟩⟩
  | some b =>
    exact ⟨b, by rw [GeometryCollection.box_of_some cb c b h]; exact ⟨rfl, h⟩⟩

/-- Once the cache holds `b`, a further `box()` returns `b` again and changes
nothing, and so does `compute_box` when it is guarded by `has_value()`. -/
theorem GeometryCollection.box_idem
    (cb : GeometryCollection α geom_def → GeometryCollection α geom_def)
    (hcb : ∀ c b, c.bbox = some b → cb c = c)
    (c : GeometryCollection α geom_def) (b : Box α)
    (h : (GeometryCollection.box cb c).2.bbox = some b) :
    GeometryCollection.box cb (GeometryCollection.box cb c).2
        = (some b, (GeometryCollection.box cb c).2) ∧
      cb (GeometryCollection.box cb c).2 = (GeometryCollection.box cb c).2 :=
  ⟨GeometryCollection.box_of_some cb _ b h, hcb _ b h⟩

theorem foldl_size_t_wrap {T : Type} (w : Nat) (f : T → Nat) (l : List T) (a : Nat)
    (h : a + (l.map f).sum < 2 ^ w) :
    l.foldl (fun result vec => size_t_wrap w (result + f vec)) a = a + (l.map f).sum := by
  induction l generalizing a with
  | nil => simp
  | cons t l ih =>
    simp only [List.map_cons, List.sum_cons] at h
    have h1 : size_t_wrap w (a + f t) = a + f t := Nat.mod_eq_of_lt (by omega)
    rw [List.foldl_cons, h1, ih (a + f t) (by omega), List.map_cons, List.sum_cons]
    omega

/-- Inherited `std::vector` calls after a `box()` leave the cache as it is, and
the next `box()` returns the cached box without touching the collection. -/
theorem GeometryCollection.box_after_vectorOps
    (cb : GeometryCollection α geom_def → GeometryCollection α geom_def)
    (c : GeometryCollection α geom_def) (b : Box α) (ops : List (VectorOp geom_def))
    (h : (GeometryCollection.box cb c).2.bbox = some b) :
    ((GeometryCollection.box cb c).2.vectorOps ops).bbox = some b ∧
      GeometryCollection.box cb ((GeometryCollection.box cb c).2.vectorOps ops)
        = (some b, (GeometryCollection.box cb c).2.vectorOps ops) := by
  have hb : ((GeometryCollection.box cb c).2.vectorOps ops).bbox = some b :=
    (GeometryCollection.vectorOps_bbox _ ops).trans h
  exact ⟨hb, GeometryCollection.box_of_some cb _ b hb⟩

theorem length_flatMap_eq_sum {T : Type} (f : T → List (arr3f α)) (l : List T) :
    (l.flatMap f).length = (l.map (fun t => (f t).length)).sum := by
  induction l with
  | nil => rfl
  | cons t l ih => simp [List.flatMap_cons, ih]

theorem sum_map_const_mul {T : Type} (k : Nat) (l : List T) :
    (l.map (fun _ => k)).sum = l.length * k := by
  induction l with
  | nil => simp
  | cons t l ih => simp [ih, Nat.add_mul, Nat.add_comm]

theorem TriangleCollection.vertex_count_eq_length_triangle (w : Nat)
    (c : TriangleCollection α) (h : (TriangleCollection.vertices c).length < 2 ^ w) :
    TriangleCollection.vertex_count w c = (TriangleCollection.vertices c).length := by
  have hl : (TriangleCollection.vertices c).length = c.elems.length * 3 := by
    rw [TriangleCollection.vertices, length_flatMap_eq_sum]
    exact sum_map_const_mul 3 c.elems
  rw [hl] at h ⊢
  exact Nat.mod_eq_of_lt h

theorem SegmentCollection.vertex_count_eq_length_segment (w : Nat)
    (c : SegmentCollection α) (h : (SegmentCollection.vertices c).length < 2 ^ w) :
    SegmentCollection.vertex_count w c = (SegmentCollection.vertices c).length := by
  have hl : (SegmentCollection.vertices c).length = c.elems.length * 2 := by
    rw [SegmentCollection.vertices, length_flatMap_eq_sum]
    exact sum_map_const_mul 2 c.elems
  rw [hl] at h ⊢
  exact Nat.mod_eq_of_lt h

theorem LineStringCollection.vertex_count_eq_length_line_string (w : Nat)
    (c : LineStringCollection α) (h : (LineStringCollection.vertices c).length < 2 ^ w) :
    LineStringCollection.vertex_count w c = (LineStringCollection.vertices c).length := by
  rw [LineStringCollection.vertices, length_flatMap_eq_sum] at h ⊢
  have := foldl_size_t_wrap w (fun vec : LineString α => vec.elems.length) c.elems 0
    (by simpa using h)
  simpa [LineStringCollection.vertex_count, GeometryCollection.size] using this

theorem LinearRingCollection.vertex_count_eq_length_linear_ring (w : Nat)
    (c : LinearRingCollection α) (h : (LinearRingCollection.vertices c).length < 2 ^ w) :
    LinearRingCollection.vertex_count w c = (LinearRingCollection.vertices c).length := by
  rw [LinearRingCollection.vertices, length_flatMap_eq_sum] at h ⊢
  have := foldl_size_t_wrap w (fun vec : LinearRing α => vec.elems.length) c.elems 0
    (by simpa using h)
  simpa [LinearRingCollection.vertex_count, GeometryCollection.size] using this

/-- The two nested variants count by the same fold, which only reads the
lengths of the sub-sequences. -/
theorem nested_vertex_count_eq_of_same_points (w : Nat)
    (cr : LinearRingCollection α) (cs : LineStringCollection α)
    (h : cr.elems.map (fun vec => vec.elems) = cs.elems.map (fun vec => vec.elems)) :
    LinearRingCollection.vertex_count w cr = LineStringCollection.vertex_count w cs := by
  have key : ∀ l : List (GeometryCollection α (arr3f α)),
      l.foldl (fun result vec => size_t_wrap w (result + vec.size)) 0
        = (l.map (fun vec => vec.elems)).foldl
            (fun result pts => size_t_wrap w (result + pts.length)) 0 := by
    intro l
    rw [List.foldl_map]
    rfl
  unfold LinearRingCollection.vertex_count LineStringCollection.vertex_count
  rw [key cr.elems, key cs.elems, h]

theorem nested_vertices_eq_of_same_points
    (cr : LinearRingCollection α) (cs : LineStringCollection α)
    (h : cr.elems.map (fun vec => vec.elems) = cs.elems.map (fun vec => vec.elems)) :
    LinearRingCollection.vertices cr = LineStringCollection.vertices cs := by
  unfold LinearRingCollection.vertices LineStringCollection.vertices
  rw [List.flatMap_def, List.flatMap_def, h]

end GenericCollectionFacts

section CollectionFacts
variable {α : Type} [Zero α] [LT α] [DecidableRel (fun x y : α => x < y)]

theorem Arr3fCollection.compute_box_of_none_arr3f (c : Arr3fCollection α) (h : c.bbox = none) :
    Arr3fCollection.compute_box c
      = { c with bbox := some ((Box.new : Box α).add_vec3f (Arr3fCollection.vertices c)) } := by
  simp [Arr3fCollection.compute_box, h, Arr3fCollection.vertices]

theorem TriangleCollection.compute_box_of_none_triangle (c : TriangleCollection α) (h : c.bbox = none) :
    TriangleCollection.compute_box c
      = { c with bbox := some ((Box.new : Box α).add_vec3f (TriangleCollection.vertices c)) } := by
  have := Box.foldl_add_vec3f (Triangle.vertices (α := α)) c.elems Box.new
  simp only [TriangleCollection.compute_box, h, TriangleCollection.vertices, ← this]
  rfl

theorem SegmentCollection.compute_box_of_none_segment (c : SegmentCollection α) (h : c.bbox = none) :
    SegmentCollection.compute_box c
      = { c with bbox := some ((Box.new : Box α).add_vec3f (SegmentCollection.vertices c)) } := by
  have := Box.foldl_add_vec3f (Segment.vertices (α := α)) c.elems Box.new
  simp only [SegmentCollection.compute_box, h, SegmentCollection.vertices, ← this]
  rfl

theorem LineStringCollection.compute_box_of_none_line_string (c : LineStringCollection α)
    (h : c.bbox = none) :
    LineStringCollection.compute_box c
      = { c with bbox := some ((Box.new : Box α).add_vec3f (LineStringCollection.vertices c)) } := by
  simp [LineStringCollection.compute_box, h, LineStringCollection.vertices, Box.foldl_add_vec3f]

theorem LinearRingCollection.compute_box_of_none_linear_ring (c : LinearRingCollection α)
    (h : c.bbox = none) :
    LinearRingCollection.compute_box c
      = { c with bbox := some ((Box.new : Box α).add_vec3f (LinearRingCollection.vertices c)) } := by
  simp [LinearRingCollection.compute_box, h, LinearRingCollection.vertices, Box.foldl_add_vec3f]

theorem Arr3fCollection.compute_box_of_some_arr3f (c : Arr3fCollection α) (b : Box α)
    (h : c.bbox = some b) : Arr3fCollection.compute_box c = c := by
  simp [Arr3fCollection.compute_box, h]

theorem TriangleCollection.compute_box_of_some_triangle (c : TriangleCollection α) (b : Box α)
    (h : c.bbox = some b) : TriangleCollection.compute_box c = c := by
  simp [TriangleCollection.compute_box, h]

theorem SegmentCollection.compute_box_of_some_segment (c : SegmentCollection α) (b : Box α)
    (h : c.bbox = some b) : SegmentCollection.compute_box c = c := by
  simp [SegmentCollection.compute_box, h]

theorem LineStringCollection.compute_box_of_some_line_string (c : LineStringCollection α) (b : Box α)
    (h : c.bbox = some b) : LineStringCollection.compute_box c = c := by
  simp [LineStringCollection.compute_box, h]

theorem LinearRingCollection.compute_box_of_some_linear_ring (c : LinearRingCollection α) (b : Box α)
    (h : c.bbox = some b) : LinearRingCollection.compute_box c = c := by
  simp [LinearRingCollection.compute_box, h]

theorem Arr3fCollection.box_returns_arr3f (c : Arr3fCollection α) :
    ∃ b, (Arr3fCollection.box c).1 = some b ∧ (Arr3fCollection.box c).2.bbox = some b :=
  GeometryCollection.box_returns _
    (fun c h => ⟨_, by rw [Arr3fCollection.compute_box_of_none_arr3f c h]⟩) c

theorem TriangleCollection.box_returns_triangle (c : TriangleCollection α) :
    ∃ b, (TriangleCollection.box c).1 = some b ∧ (TriangleCollection.box c).2.bbox = some b :=
  GeometryCollection.box_returns _
    (fun c h => ⟨_, by rw [TriangleCollection.compute_box_of_none_triangle c h]⟩) c

theorem SegmentCollection.box_returns_segment (c : SegmentCollection α) :
    ∃ b, (SegmentCollection.box c).1 = some b ∧ (SegmentCollection.box c).2.bbox = some b :=
  GeometryCollection.box_returns _
    (fun c h => ⟨_, by rw [SegmentCollection.compute_box_of_none_segment c h]⟩) c

theorem LineStringCollection.box_returns_line_string (c : LineStringCollection α) :
    ∃ b, (LineStringCollection.box c).1 = some b
      ∧ (LineStringCollection.box c).2.bbox = some b :=
  GeometryCollection.box_returns _
    (fun c h => ⟨_, by rw [LineStringCollection.compute_box_of_none_line_string c h]⟩) c

theorem LinearRingCollection.box_returns_linear_ring (c : LinearRingCollection α) :
    ∃ b, (LinearRingCollection.box c).1 = some b
      ∧ (LinearRingCollection.box c).2.bbox = some b :=
  GeometryCollection.box_returns _
    (fun c h => ⟨_, by rw [LinearRingCollection.compute_box_of_none_linear_ring c h]⟩) c

theorem Arr3fCollection.box_first_arr3f (c : Arr3fCollection α) (h : c.bbox = none) :
    (Arr3fCollection.box c).1 = some ((Box.new : Box α).add_vec3f (Arr3fCollection.vertices c)) := by
  unfold Arr3fCollection.box
  rw [GeometryCollection.box_of_none _ c h, Arr3fCollection.compute_box_of_none_arr3f c h]

theorem TriangleCollection.box_first_triangle (c : TriangleCollection α) (h : c.bbox = none) :
    (TriangleCollection.box c).1
      = some ((Box.new : Box α).add_vec3f (TriangleCollection.vertices c)) := by
  unfold TriangleCollection.box
  rw [GeometryCollection.box_of_none _ c h, TriangleCollection.compute_box_of_none_triangle c h]

theorem SegmentCollection.box_first_segment (c : SegmentCollection α) (h : c.bbox = none) :
    (SegmentCollection.box c).1
      = some ((Box.new : Box α).add_vec3f (SegmentCollection.vertices c)) := by
  unfold SegmentCollection.box
  rw [GeometryCollection.box_of_none _ c h, SegmentCollection.compute_box_of_none_segment c h]

theorem LineStringCollection.box_first_line_string (c : LineStringCollection α) (h : c.bbox = none) :
    (LineStringCollection.box c).1
      = some ((Box.new : Box α).add_vec3f (LineStringCollection.vertices c)) := by
  unfold LineStringCollection.box
  rw [GeometryCollection.box_of_none _ c h, LineStringCollection.compute_box_of_none_line_string c h]

theorem LinearRingCollection.box_first_linear_ring (c : LinearRingCollection α) (h : c.bbox = none) :
    (LinearRingCollection.box c).1
      = some ((Box.new : Box α).add_vec3f (LinearRingCollection.vertices c)) := by
  unfold LinearRingCollection.box
  rw [GeometryCollection.box_of_none _ c h, LinearRingCollection.compute_box_of_none_linear_ring c h]

end CollectionFacts

section CollectionOrderFacts
variable {α : Type} [LinearOrderedField α]

/-- The box built from a non-empty vertex list is non-empty and has the
per-axis minimum and maximum of the vertices as its bounds. -/
theorem Box.new_add_vec3f_bounds (vs : vec3f α) (h : vs ≠ []) :
    ((Box.new : Box α).add_vec3f vs).isEmpty = false ∧
    ∀ i : Fin 3,
      (vs.map (fun p => p.get i)).minimum
        = (((((Box.new : Box α).add_vec3f vs).min).get i : α) : WithTop α) ∧
      (vs.map (fun p => p.get i)).maximum
        = (((((Box.new : Box α).add_vec3f vs).max).get i : α) : WithBot α) :=
  ⟨Box.add_vec3f_just_cleared_of_ne_nil _ vs h, fun i =>
    ⟨(Box.add_vec3f_of_cleared_pmin _ vs Box.new_just_cleared h i).symm,
      (Box.add_vec3f_of_cleared_pmax _ vs Box.new_just_cleared h i).symm⟩⟩

theorem Box.center_new : (Box.new : Box α).center = ⟨0, 0, 0⟩ := by
  simp [Box.center, Box.new, Box.clear, arr3f.fill]

theorem Box.new_add_vec3f_isEmpty_iff (vs : vec3f α) :
    ((Box.new : Box α).add_vec3f vs).isEmpty = true ↔ vs = [] := by
  constructor
  · intro h
    by_contra hne
    have := Box.add_vec3f_just_cleared_of_ne_nil (Box.new : Box α) vs hne
    rw [Box.isEmpty, this] at h
    exact absurd h (by simp)
  · intro h
    rw [h]
    rfl

theorem Box.new_add_vec3f_val (vs : vec3f α) :
    (Box.new : Box (float α)).add_vec3f (vs.map (arr3f.map float.val))
      = ((Box.new : Box α).add_vec3f vs).map float.val :=
  Box.add_vec3f_map_val Box.new vs

end CollectionOrderFacts

/-! ## Claims about `Box` -/

/-- C10: after `b.set(nmin, nmax)`, for any box `b` and any two triples (also
with `nmin[i] > nmax[i]`), `min() == nmin`, `max() == nmax` and the box is not
empty. -/
theorem Box.set_spec {α : Type} (b : Box α) (nmin nmax : arr3f α) :
    (b.set nmin nmax).min = nmin ∧ (b.set nmin nmax).max = nmax ∧
    (b.set nmin nmax).isEmpty = false :=
  ⟨rfl, rfl, rfl⟩

section BoxClaims
variable {α : Type} [LinearOrderedField α]

/-- C1: for a non-empty point list `P`, folding `P` into a new `Box`, point by
point with `add` or at once with `add(sequence)`, gives the same box, whose
`min()[i]` is the minimum and whose `max()[i]` is the maximum of `p[i]` over
`P`, on each axis `i`. -/
theorem Box.fold_min_max (P : vec3f α) (hP : P ≠ []) (i : Fin 3) :
    P.foldl Box.add (Box.new : Box α) = (Box.new : Box α).add_vec3f P ∧
    (P.map (fun p => p.get i)).minimum
      = (((((Box.new : Box α).add_vec3f P).min).get i : α) : WithTop α) ∧
    (P.map (fun p => p.get i)).maximum
      = (((((Box.new : Box α).add_vec3f P).max).get i : α) : WithBot α) :=
  ⟨rfl, (Box.add_vec3f_of_cleared_pmin _ P Box.new_just_cleared hP i).symm,
    (Box.add_vec3f_of_cleared_pmax _ P Box.new_just_cleared hP i).symm⟩

/-- Witness of C1 on the points (0,0,0), (2,0,0), (0,2,0) and axis 0. -/
theorem Box.fold_min_max_witness :
    ([⟨0, 0, 0⟩, ⟨2, 0, 0⟩, ⟨0, 2, 0⟩] : vec3f ℚ) ≠ [] ∧
    ([⟨0, 0, 0⟩, ⟨2, 0, 0⟩, ⟨0, 2, 0⟩] : vec3f ℚ).foldl Box.add (Box.new : Box ℚ)
      = (Box.new : Box ℚ).add_vec3f [⟨0, 0, 0⟩, ⟨2, 0, 0⟩, ⟨0, 2, 0⟩] ∧
    (([⟨0, 0, 0⟩, ⟨2, 0, 0⟩, ⟨0, 2, 0⟩] : vec3f ℚ).map (fun p => p.get 0)).minimum
      = (((((Box.new : Box ℚ).add_vec3f [⟨0, 0, 0⟩, ⟨2, 0, 0⟩, ⟨0, 2, 0⟩]).min).get 0 : ℚ) :
          WithTop ℚ) ∧
    (([⟨0, 0, 0⟩, ⟨2, 0, 0⟩, ⟨0, 2, 0⟩] : vec3f ℚ).map (fun p => p.get 0)).maximum
      = (((((Box.new : Box ℚ).add_vec3f [⟨0, 0, 0⟩, ⟨2, 0, 0⟩, ⟨0, 2, 0⟩]).max).get 0 : ℚ) :
          WithBot ℚ) :=
  ⟨by simp, Box.fold_min_max _ (by simp) 0⟩

/-- C4: a newly constructed `Box` is empty, and after a single `add` of a
point any box, empty or not, is non-empty. -/
theorem Box.isEmpty_new_and_add :
    (Box.new : Box α).isEmpty = true ∧
    (∀ (b : Box α) (p : arr3f α), (b.add p).isEmpty = false) ∧
    (∀ (b : Box α) (p : arr3f α), (b.add_arr3f p).isEmpty = false) :=
  ⟨rfl, fun b p => Box.add_just_cleared b p, fun b p => Box.add_just_cleared b p⟩

/-- C3 as amended: with coordinates that are not NaN (taken in a linearly
ordered field), every `Box` reachable from `Box()` by `add` (point, point
sequence, other reachable box), `clear` and `set` with `nmin[i] <= nmax[i]`
satisfies, whenever `isEmpty()` is false, `min()[i] <= max()[i]` on every
axis; read as a `float` box it is reachable by the same calls and satisfies
the same inequalities of `float`s. -/
theorem Box.Reachable.min_le_max {b : Box α} (hb : b.Reachable) :
    (b.isEmpty = false → ∀ i : Fin 3, b.min.get i ≤ b.max.get i) ∧
    (b.map float.val).Reachable ∧
    ((b.map float.val).isEmpty = false →
      ∀ i : Fin 3, (b.map float.val).min.get i ≤ (b.map float.val).max.get i) := by
  refine ⟨fun _ i => Box.Reachable.pmin_le_pmax hb i, Box.Reachable.map_val hb, fun _ i => ?_⟩
  show (b.pmin.map float.val).get i ≤ (b.pmax.map float.val).get i
  rw [arr3f.map_get, arr3f.map_get]
  exact (float.val_le_val _ _).mpr (Box.Reachable.pmin_le_pmax hb i)

/-- Witness of C3: the box `Box().add((1,2,3))`. -/
theorem Box.Reachable.min_le_max_witness :
    ((Box.new : Box ℚ).add ⟨1, 2, 3⟩).Reachable ∧
    ((Box.new : Box ℚ).add ⟨1, 2, 3⟩).isEmpty = false ∧
    ∀ i : Fin 3, ((Box.new : Box ℚ).add ⟨1, 2, 3⟩).min.get i
      ≤ ((Box.new : Box ℚ).add ⟨1, 2, 3⟩).max.get i :=
  ⟨Box.Reachable.add _ _ Box.Reachable.new, rfl,
    (Box.Reachable.min_le_max (Box.Reachable.add _ _ Box.Reachable.new)).1 rfl⟩

/-- C2, evaluated where it fails: `A` built from the single point (1,1,1), `B`
built from no point. `A.add(B)` folds the zeroed corners of the empty `B`
into `A` and yields min (0,0,0), max (1,1,1), while a fresh box built from
all the points has min = max = (1,1,1). -/
theorem Box.add_Box_of_empty_argument :
    (((Box.new : Box ℚ).add_vec3f [⟨1, 1, 1⟩]).add_Box ((Box.new : Box ℚ).add_vec3f [])).min
      = ⟨0, 0, 0⟩ ∧
    (((Box.new : Box ℚ).add_vec3f [⟨1, 1, 1⟩]).add_Box ((Box.new : Box ℚ).add_vec3f [])).max
      = ⟨1, 1, 1⟩ ∧
    ((Box.new : Box ℚ).add_vec3f ([⟨1, 1, 1⟩] ++ [])).min = ⟨1, 1, 1⟩ ∧
    ((Box.new : Box ℚ).add_vec3f ([⟨1, 1, 1⟩] ++ [])).max = ⟨1, 1, 1⟩ := by
  decide

/-- C11: every `Box` obtained from `Box()` by `add`, `set` and `clear` calls
that reports `isEmpty()` has `min() == max() == (0,0,0)` and hence
`center() == (0,0,0)`; and for every box `center()[i]` is
`(max()[i] + min()[i]) / 2`. -/
theorem Box.Generated.empty_is_zero {b : Box α} (hb : b.Generated) :
    (b.isEmpty = true → b.min = ⟨0, 0, 0⟩ ∧ b.max = ⟨0, 0, 0⟩ ∧ b.center = ⟨0, 0, 0⟩) ∧
    ∀ (c : Box α) (i : Fin 3), c.center.get i = (c.max.get i + c.min.get i) / 2 := by
  refine ⟨fun h => ?_, fun c i => ?_⟩
  · rw [Box.Generated.eq_new_of_cleared hb h]
    exact ⟨rfl, rfl, Box.center_new⟩
  · fin_cases i <;> rfl

/-- Witness of C11: the box `Box().add((1,2,3)).clear()`. -/
theorem Box.Generated.empty_is_zero_witness :
    (((Box.new : Box ℚ).add ⟨1, 2, 3⟩).clear).Generated ∧
    (((Box.new : Box ℚ).add ⟨1, 2, 3⟩).clear).isEmpty = true ∧
    ((((Box.new : Box ℚ).add ⟨1, 2, 3⟩).clear).min = ⟨0, 0, 0⟩ ∧
      (((Box.new : Box ℚ).add ⟨1, 2, 3⟩).clear).max = ⟨0, 0, 0⟩ ∧
      (((Box.new : Box ℚ).add ⟨1, 2, 3⟩).clear).center = ⟨0, 0, 0⟩) :=
  ⟨Box.Generated.clear _ (Box.Generated.add _ _ Box.Generated.new), rfl,
    (Box.Generated.empty_is_zero
      (Box.Generated.clear _ (Box.Generated.add _ _ Box.Generated.new))).1 rfl⟩

/-- C12: for every box state, `clear()` yields exactly the state of a newly
constructed `Box` (min = max = (0,0,0), empty), and `clear` applied twice
gives the same state as `clear` applied once. -/
theorem Box.clear_spec (b : Box α) :
    b.clear = Box.new ∧ b.clear.min = ⟨0, 0, 0⟩ ∧ b.clear.max = ⟨0, 0, 0⟩ ∧
    b.clear.isEmpty = true ∧ b.clear.clear = b.clear :=
  ⟨rfl, rfl, rfl, rfl, rfl⟩

/-- C13: the code's `add` (initialise when empty, then always apply the
elementwise min / max) equals the specified if-empty / else rule on every
input: on an empty box `min() == max() == p`, on a non-empty box
`min()[i] == min(p[i], old min[i])` and `max()[i] == max(p[i], old max[i])`. -/
theorem Box.add_refines_add_spec :
    (∀ (b : Box α) (p : arr3f α), b.add p = b.add_spec p) ∧
    (∀ (b : Box α) (p : arr3f α), b.isEmpty = true →
      (b.add p).min = p ∧ (b.add p).max = p ∧ (b.add p).isEmpty = false) ∧
    (∀ (b : Box α) (p : arr3f α), b.isEmpty = false → ∀ i : Fin 3,
      (b.add p).min.get i = Min.min (p.get i) (b.min.get i) ∧
      (b.add p).max.get i = Max.max (p.get i) (b.max.get i)) := by
  refine ⟨fun b p => ?_, fun b p h => ?_, fun b p h i => ?_⟩
  · cases hc : b.just_cleared with
    | true => rw [Box.add_of_cleared b p hc]; simp [Box.add_spec, Box.isEmpty, hc]
    | false => rw [Box.add_of_not_cleared b p hc]; simp [Box.add_spec, Box.isEmpty, hc]
  · rw [Box.add_of_cleared b p h]
    exact ⟨rfl, rfl, rfl⟩
  · exact ⟨Box.add_pmin_get b p h i, Box.add_pmax_get b p h i⟩

/-- Witness of C13: adding (1,2,3) to a new box. -/
theorem Box.add_refines_add_spec_witness :
    (Box.new : Box ℚ).isEmpty = true ∧
    ((Box.new : Box ℚ).add ⟨1, 2, 3⟩).min = ⟨1, 2, 3⟩ ∧
    ((Box.new : Box ℚ).add ⟨1, 2, 3⟩).max = ⟨1, 2, 3⟩ ∧
    ((Box.new : Box ℚ).add ⟨1, 2, 3⟩).isEmpty = false :=
  ⟨rfl, Box.add_refines_add_spec.2.1 _ _ rfl⟩

/-- C16 as amended: for points `p`, `q` whose coordinates are not NaN, adding
`p` then `q` to any box gives the same state (min, max, emptiness) as adding
`q` then `p`; hence folding a list of such points and folding any
permutation of it, into a new box or any other box, give the same box. This
holds with all coordinates in a linearly ordered field, and for every `float`
box, also one with NaN bounds. -/
theorem Box.add_order_independent :
    (∀ (b : Box α) (p q : arr3f α), (b.add p).add q = (b.add q).add p) ∧
    (∀ (b : Box α) (P Q : vec3f α), P.Perm Q →
      b.add_vec3f P = b.add_vec3f Q ∧ P.foldl Box.add b = Q.foldl Box.add b) ∧
    (∀ P Q : vec3f α, P.Perm Q →
      (Box.new : Box α).add_vec3f P = (Box.new : Box α).add_vec3f Q) ∧
    (∀ (b : Box (float α)) (p q : arr3f α),
      (b.add (p.map float.val)).add (q.map float.val)
        = (b.add (q.map float.val)).add (p.map float.val)) ∧
    (∀ (b : Box (float α)) (P Q : vec3f α), P.Perm Q →
      b.add_vec3f (P.map (arr3f.map float.val))
        = b.add_vec3f (Q.map (arr3f.map float.val))) := by
  have hperm : ∀ (b : Box α) (P Q : vec3f α), P.Perm Q → P.foldl Box.add b = Q.foldl Box.add b :=
    fun b P Q h => h.foldl_eq' (fun x _ y _ z => Box.add_comm_add z x y) b
  exact ⟨Box.add_comm_add, fun b P Q h => ⟨hperm b P Q h, hperm b P Q h⟩,
    fun P Q h => hperm _ P Q h, Box.add_comm_add_float, Box.add_vec3f_perm_float⟩

/-- Witness of C16: the lists [(1,2,3), (0,5,0)] and [(0,5,0), (1,2,3)]. -/
theorem Box.add_order_independent_witness :
    ([⟨1, 2, 3⟩, ⟨0, 5, 0⟩] : vec3f ℚ).Perm [⟨0, 5, 0⟩, ⟨1, 2, 3⟩] ∧
    (Box.new : Box ℚ).add_vec3f [⟨1, 2, 3⟩, ⟨0, 5, 0⟩]
      = (Box.new : Box ℚ).add_vec3f [⟨0, 5, 0⟩, ⟨1, 2, 3⟩] :=
  ⟨List.Perm.swap _ _ _, Box.add_order_independent.2.2.1 _ _ (List.Perm.swap _ _ _)⟩

/-- C17 as amended: for a point `p` whose coordinates are not NaN, after
`b.add(p)` the point lies in the box, `min()[i] <= p[i] <= max()[i]`; if `b`
was non-empty with bounds that are not NaN, the new min is at most the old
min and the new max at least the old max; every point contained in a
non-empty box before is contained after; adding the same point, NaN or not,
a second time changes nothing. The first, third and fourth part hold with
all coordinates in a linearly ordered field and for every `float` box, also
one with NaN bounds. -/
theorem Box.add_contains_and_grows (b : Box α) (p : arr3f α) :
    (∀ i : Fin 3, (b.add p).min.get i ≤ p.get i ∧ p.get i ≤ (b.add p).max.get i) ∧
    (b.isEmpty = false → ∀ i : Fin 3,
      (b.add p).min.get i ≤ b.min.get i ∧ b.max.get i ≤ (b.add p).max.get i) ∧
    (b.isEmpty = false → ∀ q : arr3f α,
      (∀ i : Fin 3, b.min.get i ≤ q.get i ∧ q.get i ≤ b.max.get i) →
      ∀ i : Fin 3, (b.add p).min.get i ≤ q.get i ∧ q.get i ≤ (b.add p).max.get i) ∧
    (b.add p).add p = b.add p ∧
    (∀ (c : Box (float α)) (i : Fin 3),
      (c.add (p.map float.val)).min.get i ≤ (p.map float.val).get i ∧
      (p.map float.val).get i ≤ (c.add (p.map float.val)).max.get i) ∧
    (∀ c : Box (float α), c.isEmpty = false → ∀ q : arr3f (float α),
      (∀ i : Fin 3, c.min.get i ≤ q.get i ∧ q.get i ≤ c.max.get i) →
      ∀ i : Fin 3, (c.add (p.map float.val)).min.get i ≤ q.get i ∧
        q.get i ≤ (c.add (p.map float.val)).max.get i) ∧
    (∀ (c : Box (float α)) (r : arr3f (float α)), (c.add r).add r = c.add r) := by
  have hgrow : b.isEmpty = false → ∀ i : Fin 3,
      (b.add p).min.get i ≤ b.min.get i ∧ b.max.get i ≤ (b.add p).max.get i := by
    intro h i
    constructor
    · show (b.add p).pmin.get i ≤ b.pmin.get i
      rw [Box.add_pmin_get b p h i]; exact min_le_right _ _
    · show b.pmax.get i ≤ (b.add p).pmax.get i
      rw [Box.add_pmax_get b p h i]; exact le_max_right _ _
  exact ⟨fun i => ⟨Box.add_pmin_le b p i, Box.le_add_pmax b p i⟩, hgrow,
    fun h q hq i => ⟨le_trans (hgrow h i).1 (hq i).1, le_trans (hq i).2 (hgrow h i).2⟩,
    Box.add_add_same b p, fun c i => Box.add_contains_float c p i,
    fun c hc q hq i => Box.add_keeps_inside_float c p hc q i (hq i),
    fun c r => Box.add_add_same_any c r⟩

/-- Witness of C17: adding (0,5,0) to the non-empty box `Box().add((1,2,3))`. -/
theorem Box.add_contains_and_grows_witness :
    ((Box.new : Box ℚ).add ⟨1, 2, 3⟩).isEmpty = false ∧
    ∀ i : Fin 3,
      (((Box.new : Box ℚ).add ⟨1, 2, 3⟩).add ⟨0, 5, 0⟩).min.get i
        ≤ ((Box.new : Box ℚ).add ⟨1, 2, 3⟩).min.get i ∧
      ((Box.new : Box ℚ).add ⟨1, 2, 3⟩).max.get i
        ≤ (((Box.new : Box ℚ).add ⟨1, 2, 3⟩).add ⟨0, 5, 0⟩).max.get i :=
  ⟨rfl, (Box.add_contains_and_grows _ _).2.1 rfl⟩

/-- C3, evaluated where it fails: `Box().add((NaN,0,0))` is reachable and not
empty, and its `min()[0]` and `max()[0]` are both NaN, so
`min()[0] <= max()[0]` is false. -/
theorem Box.add_nan_breaks_min_le_max :
    ((Box.new : Box (float ℚ)).add ⟨float.nan, 0, 0⟩).Reachable ∧
    ((Box.new : Box (float ℚ)).add ⟨float.nan, 0, 0⟩).isEmpty = false ∧
    ((Box.new : Box (float ℚ)).add ⟨float.nan, 0, 0⟩).min = ⟨float.nan, 0, 0⟩ ∧
    ((Box.new : Box (float ℚ)).add ⟨float.nan, 0, 0⟩).max = ⟨float.nan, 0, 0⟩ ∧
    ¬ (((Box.new : Box (float ℚ)).add ⟨float.nan, 0, 0⟩).min.get 0
        ≤ ((Box.new : Box (float ℚ)).add ⟨float.nan, 0, 0⟩).max.get 0) :=
  ⟨Box.Reachable.add _ _ Box.Reachable.new, by decide, by decide, by decide, by decide⟩

/-- C16, evaluated where it fails: adding (NaN,0,0) then (1,0,0) to a new box
gives min = max = (1,0,0); adding (1,0,0) then (NaN,0,0) gives
min = max = (NaN,0,0). -/
theorem Box.add_order_dependent_at_nan :
    ((Box.new : Box (float ℚ)).add ⟨float.nan, 0, 0⟩).add ⟨float.val 1, 0, 0⟩
      = ⟨⟨float.val 1, 0, 0⟩, ⟨float.val 1, 0, 0⟩, false⟩ ∧
    ((Box.new : Box (float ℚ)).add ⟨float.val 1, 0, 0⟩).add ⟨float.nan, 0, 0⟩
      = ⟨⟨float.nan, 0, 0⟩, ⟨float.nan, 0, 0⟩, false⟩ ∧
    ((Box.new : Box (float ℚ)).add ⟨float.nan, 0, 0⟩).add ⟨float.val 1, 0, 0⟩
      ≠ ((Box.new : Box (float ℚ)).add ⟨float.val 1, 0, 0⟩).add ⟨float.nan, 0, 0⟩ ∧
    (Box.new : Box (float ℚ)).add_vec3f [⟨float.nan, 0, 0⟩, ⟨float.val 1, 0, 0⟩]
      ≠ (Box.new : Box (float ℚ)).add_vec3f [⟨float.val 1, 0, 0⟩, ⟨float.nan, 0, 0⟩] := by
  decide

/-- C17, evaluated where it fails: the box `Box().add((1,0,0))` is not empty
and contains (1,0,0); after `add((NaN,0,0))` its `min()[0]` and `max()[0]`
are NaN, so the added point is not inside, the new min is not `<=` the old
min, the old max is not `<=` the new max, and (1,0,0) is no longer inside.
And on the non-empty box `Box().add((NaN,0,0))`, whose bounds are NaN,
`add((1,0,0))` gives min()[0] = 1, which is not `<=` the old min. -/
theorem Box.add_nan_not_contained :
    ((Box.new : Box (float ℚ)).add ⟨float.val 1, 0, 0⟩).isEmpty = false ∧
    (((Box.new : Box (float ℚ)).add ⟨float.val 1, 0, 0⟩).min.get 0 ≤ float.val 1 ∧
      float.val 1 ≤ ((Box.new : Box (float ℚ)).add ⟨float.val 1, 0, 0⟩).max.get 0) ∧
    (((Box.new : Box (float ℚ)).add ⟨float.val 1, 0, 0⟩).add ⟨float.nan, 0, 0⟩).min
      = ⟨float.nan, 0, 0⟩ ∧
    (((Box.new : Box (float ℚ)).add ⟨float.val 1, 0, 0⟩).add ⟨float.nan, 0, 0⟩).max
      = ⟨float.nan, 0, 0⟩ ∧
    ¬ ((((Box.new : Box (float ℚ)).add ⟨float.val 1, 0, 0⟩).add ⟨float.nan, 0, 0⟩).min.get 0
        ≤ (⟨float.nan, 0, 0⟩ : arr3f (float ℚ)).get 0) ∧
    ¬ ((((Box.new : Box (float ℚ)).add ⟨float.val 1, 0, 0⟩).add ⟨float.nan, 0, 0⟩).min.get 0
        ≤ ((Box.new : Box (float ℚ)).add ⟨float.val 1, 0, 0⟩).min.get 0) ∧
    ¬ (((Box.new : Box (float ℚ)).add ⟨float.val 1, 0, 0⟩).max.get 0
        ≤ (((Box.new : Box (float ℚ)).add ⟨float.val 1, 0, 0⟩).add ⟨float.nan, 0, 0⟩).max.get 0) ∧
    ¬ ((((Box.new : Box (float ℚ)).add ⟨float.val 1, 0, 0⟩).add ⟨float.nan, 0, 0⟩).min.get 0
        ≤ float.val 1) ∧
    ((Box.new : Box (float ℚ)).add ⟨float.nan, 0, 0⟩).isEmpty = false ∧
    ¬ ((((Box.new : Box (float ℚ)).add ⟨float.nan, 0, 0⟩).add ⟨float.val 1, 0, 0⟩).min.get 0
        ≤ ((Box.new : Box (float ℚ)).add ⟨float.nan, 0, 0⟩).min.get 0) := by
  decide

end BoxClaims

/-! ## Claims about the collections -/

section CollectionClaims
variable {α : Type} [LinearOrderedField α]

/-- C5: for every collection variant and every state, `box()` returns a box
`b`; a second `box()` with no mutation in between returns the same `b` (same
min, max and emptiness flag) and leaves the collection, cache included,
exactly as the first call left it; `compute_box` then does nothing. -/
theorem box_idempotent :
    (∀ c : Arr3fCollection α, ∃ b, (Arr3fCollection.box c).1 = some b ∧
      Arr3fCollection.box (Arr3fCollection.box c).2 = (some b, (Arr3fCollection.box c).2) ∧
      Arr3fCollection.compute_box (Arr3fCollection.box c).2 = (Arr3fCollection.box c).2) ∧
    (∀ c : TriangleCollection α, ∃ b, (TriangleCollection.box c).1 = some b ∧
      TriangleCollection.box (TriangleCollection.box c).2
        = (some b, (TriangleCollection.box c).2) ∧
      TriangleCollection.compute_box (TriangleCollection.box c).2
        = (TriangleCollection.box c).2) ∧
    (∀ c : SegmentCollection α, ∃ b, (SegmentCollection.box c).1 = some b ∧
      SegmentCollection.box (SegmentCollection.box c).2
        = (some b, (SegmentCollection.box c).2) ∧
      SegmentCollection.compute_box (SegmentCollection.box c).2
        = (SegmentCollection.box c).2) ∧
    (∀ c : LineStringCollection α, ∃ b, (LineStringCollection.box c).1 = some b ∧
      LineStringCollection.box (LineStringCollection.box c).2
        = (some b, (LineStringCollection.box c).2) ∧
      LineStringCollection.compute_box (LineStringCollection.box c).2
        = (LineStringCollection.box c).2) ∧
    (∀ c : LinearRingCollection α, ∃ b, (LinearRingCollection.box c).1 = some b ∧
      LinearRingCollection.box (LinearRingCollection.box c).2
        = (some b, (LinearRingCollection.box c).2) ∧
      LinearRingCollection.compute_box (LinearRingCollection.box c).2
        = (LinearRingCollection.box c).2) := by
  refine ⟨fun c => ?_, fun c => ?_, fun c => ?_, fun c => ?_, fun c => ?_⟩
  · obtain ⟨b, h1, h2⟩ := Arr3fCollection.box_returns_arr3f c
    exact ⟨b, h1, GeometryCollection.box_idem _ Arr3fCollection.compute_box_of_some_arr3f c b h2⟩
  · obtain ⟨b, h1, h2⟩ := TriangleCollection.box_returns_triangle c
    exact ⟨b, h1, GeometryCollection.box_idem _ TriangleCollection.compute_box_of_some_triangle c b h2⟩
  · obtain ⟨b, h1, h2⟩ := SegmentCollection.box_returns_segment c
    exact ⟨b, h1, GeometryCollection.box_idem _ SegmentCollection.compute_box_of_some_segment c b h2⟩
  · obtain ⟨b, h1, h2⟩ := LineStringCollection.box_returns_line_string c
    exact ⟨b, h1, GeometryCollection.box_idem _ LineStringCollection.compute_box_of_some_line_string c b h2⟩
  · obtain ⟨b, h1, h2⟩ := LinearRingCollection.box_returns_linear_ring c
    exact ⟨b, h1, GeometryCollection.box_idem _ LinearRingCollection.compute_box_of_some_linear_ring c b h2⟩

/-- C7 as amended: for every collection variant with at least one vertex and
coordinates that are not NaN (taken in a linearly ordered field), the box
returned by the first `box()` call is non-empty and has `min()[i]` equal to
the minimum and `max()[i]` equal to the maximum of coordinate `i` over all
vertices of all elements. The points (0,0,0), (2,0,0), (0,2,0) give
min (0,0,0), max (2,2,0), center (1,1,0); the triangle
[(0,0,0), (1,0,0), (0,1,0)] gives min (0,0,0), max (1,1,0). The last five
parts say the same of a collection of `float`s whose vertices are the points
`vs` without NaN. -/
theorem box_first_bounds :
    (∀ c : Arr3fCollection α, c.bbox = none → Arr3fCollection.vertices c ≠ [] →
      ∃ b, (Arr3fCollection.box c).1 = some b ∧ b.isEmpty = false ∧ ∀ i : Fin 3,
        ((Arr3fCollection.vertices c).map (fun p => p.get i)).minimum
          = ((b.min.get i : α) : WithTop α) ∧
        ((Arr3fCollection.vertices c).map (fun p => p.get i)).maximum
          = ((b.max.get i : α) : WithBot α)) ∧
    (∀ c : TriangleCollection α, c.bbox = none → TriangleCollection.vertices c ≠ [] →
      ∃ b, (TriangleCollection.box c).1 = some b ∧ b.isEmpty = false ∧ ∀ i : Fin 3,
        ((TriangleCollection.vertices c).map (fun p => p.get i)).minimum
          = ((b.min.get i : α) : WithTop α) ∧
        ((TriangleCollection.vertices c).map (fun p => p.get i)).maximum
          = ((b.max.get i : α) : WithBot α)) ∧
    (∀ c : SegmentCollection α, c.bbox = none → SegmentCollection.vertices c ≠ [] →
      ∃ b, (SegmentCollection.box c).1 = some b ∧ b.isEmpty = false ∧ ∀ i : Fin 3,
        ((SegmentCollection.vertices c).map (fun p => p.get i)).minimum
          = ((b.min.get i : α) : WithTop α) ∧
        ((SegmentCollection.vertices c).map (fun p => p.get i)).maximum
          = ((b.max.get i : α) : WithBot α)) ∧
    (∀ c : LineStringCollection α, c.bbox = none → LineStringCollection.vertices c ≠ [] →
      ∃ b, (LineStringCollection.box c).1 = some b ∧ b.isEmpty = false ∧ ∀ i : Fin 3,
        ((LineStringCollection.vertices c).map (fun p => p.get i)).minimum
          = ((b.min.get i : α) : WithTop α) ∧
        ((LineStringCollection.vertices c).map (fun p => p.get i)).maximum
          = ((b.max.get i : α) : WithBot α)) ∧
    (∀ c : LinearRingCollection α, c.bbox = none → LinearRingCollection.vertices c ≠ [] →
      ∃ b, (LinearRingCollection.box c).1 = some b ∧ b.isEmpty = false ∧ ∀ i : Fin 3,
        ((LinearRingCollection.vertices c).map (fun p => p.get i)).minimum
          = ((b.min.get i : α) : WithTop α) ∧
        ((LinearRingCollection.vertices c).map (fun p => p.get i)).maximum
          = ((b.max.get i : α) : WithBot α)) ∧
    (∃ b, (Arr3fCollection.box
          (⟨[⟨0, 0, 0⟩, ⟨2, 0, 0⟩, ⟨0, 2, 0⟩], none⟩ : PointCollection α)).1 = some b ∧
      b.min = ⟨0, 0, 0⟩ ∧ b.max = ⟨2, 2, 0⟩ ∧ b.center = ⟨1, 1, 0⟩) ∧
    (∃ b, (TriangleCollection.box
          (⟨[⟨⟨0, 0, 0⟩, ⟨1, 0, 0⟩, ⟨0, 1, 0⟩⟩], none⟩ : TriangleCollection α)).1 = some b ∧
      b.min = ⟨0, 0, 0⟩ ∧ b.max = ⟨1, 1, 0⟩) ∧
    (∀ (c : Arr3fCollection (float α)) (vs : vec3f α), c.bbox = none →
      Arr3fCollection.vertices c = vs.map (arr3f.map float.val) → vs ≠ [] →
      ∃ b : Box α, (Arr3fCollection.box c).1 = some (b.map float.val) ∧ b.isEmpty = false ∧
        ∀ i : Fin 3, (vs.map (fun p => p.get i)).minimum = ((b.min.get i : α) : WithTop α) ∧
          (vs.map (fun p => p.get i)).maximum = ((b.max.get i : α) : WithBot α)) ∧
    (∀ (c : TriangleCollection (float α)) (vs : vec3f α), c.bbox = none →
      TriangleCollection.vertices c = vs.map (arr3f.map float.val) → vs ≠ [] →
      ∃ b : Box α, (TriangleCollection.box c).1 = some (b.map float.val) ∧ b.isEmpty = false ∧
        ∀ i : Fin 3, (vs.map (fun p => p.get i)).minimum = ((b.min.get i : α) : WithTop α) ∧
          (vs.map (fun p => p.get i)).maximum = ((b.max.get i : α) : WithBot α)) ∧
    (∀ (c : SegmentCollection (float α)) (vs : vec3f α), c.bbox = none →
      SegmentCollection.vertices c = vs.map (arr3f.map float.val) → vs ≠ [] →
      ∃ b : Box α, (SegmentCollection.box c).1 = some (b.map float.val) ∧ b.isEmpty = false ∧
        ∀ i : Fin 3, (vs.map (fun p => p.get i)).minimum = ((b.min.get i : α) : WithTop α) ∧
          (vs.map (fun p => p.get i)).maximum = ((b.max.get i : α) : WithBot α)) ∧
    (∀ (c : LineStringCollection (float α)) (vs : vec3f α), c.bbox = none →
      LineStringCollection.vertices c = vs.map (arr3f.map float.val) → vs ≠ [] →
      ∃ b : Box α, (LineStringCollection.box c).1 = some (b.map float.val) ∧ b.isEmpty = false ∧
        ∀ i : Fin 3, (vs.map (fun p => p.get i)).minimum = ((b.min.get i : α) : WithTop α) ∧
          (vs.map (fun p => p.get i)).maximum = ((b.max.get i : α) : WithBot α)) ∧
    (∀ (c : LinearRingCollection (float α)) (vs : vec3f α), c.bbox = none →
      LinearRingCollection.vertices c = vs.map (arr3f.map float.val) → vs ≠ [] →
      ∃ b : Box α, (LinearRingCollection.box c).1 = some (b.map float.val) ∧ b.isEmpty = false ∧
        ∀ i : Fin 3, (vs.map (fun p => p.get i)).minimum = ((b.min.get i : α) : WithTop α) ∧
          (vs.map (fun p => p.get i)).maximum = ((b.max.get i : α) : WithBot α)) := by
  refine ⟨fun c h hv => ⟨_, Arr3fCollection.box_first_arr3f c h, Box.new_add_vec3f_bounds _ hv⟩,
    fun c h hv => ⟨_, TriangleCollection.box_first_triangle c h, Box.new_add_vec3f_bounds _ hv⟩,
    fun c h hv => ⟨_, SegmentCollection.box_first_segment c h, Box.new_add_vec3f_bounds _ hv⟩,
    fun c h hv => ⟨_, LineStringCollection.box_first_line_string c h, Box.new_add_vec3f_bounds _ hv⟩,
    fun c h hv => ⟨_, LinearRingCollection.box_first_linear_ring c h, Box.new_add_vec3f_bounds _ hv⟩,
    ⟨_, Arr3fCollection.box_first_arr3f _ rfl, ?_⟩,
    ⟨_, TriangleCollection.box_first_triangle _ rfl, ?_⟩,
    fun c vs h hv hne => ⟨_, (Arr3fCollection.box_first_arr3f c h).trans
      (by rw [hv, Box.new_add_vec3f_val]), Box.new_add_vec3f_bounds vs hne⟩,
    fun c vs h hv hne => ⟨_, (TriangleCollection.box_first_triangle c h).trans
      (by rw [hv, Box.new_add_vec3f_val]), Box.new_add_vec3f_bounds vs hne⟩,
    fun c vs h hv hne => ⟨_, (SegmentCollection.box_first_segment c h).trans
      (by rw [hv, Box.new_add_vec3f_val]), Box.new_add_vec3f_bounds vs hne⟩,
    fun c vs h hv hne => ⟨_, (LineStringCollection.box_first_line_string c h).trans
      (by rw [hv, Box.new_add_vec3f_val]), Box.new_add_vec3f_bounds vs hne⟩,
    fun c vs h hv hne => ⟨_, (LinearRingCollection.box_first_linear_ring c h).trans
      (by rw [hv, Box.new_add_vec3f_val]), Box.new_add_vec3f_bounds vs hne⟩⟩
  · simp [Arr3fCollection.vertices, Box.add_vec3f, Box.add_arr3f, Box.add, Box.new, Box.clear,
      Box.min, Box.max, Box.center, arr3f.fill, std_min_eq_min, std_max_eq_max]
  · simp [TriangleCollection.vertices, Triangle.vertices, Box.add_vec3f, Box.add_arr3f, Box.add,
      Box.new, Box.clear, Box.min, Box.max, arr3f.fill, std_min_eq_min, std_max_eq_max]

/-- Witness of C7: the point collection (0,0,0), (2,0,0), (0,2,0). -/
theorem box_first_bounds_witness :
    (⟨[⟨0, 0, 0⟩, ⟨2, 0, 0⟩, ⟨0, 2, 0⟩], none⟩ : PointCollection ℚ).bbox = none ∧
    Arr3fCollection.vertices (⟨[⟨0, 0, 0⟩, ⟨2, 0, 0⟩, ⟨0, 2, 0⟩], none⟩ : PointCollection ℚ) ≠ [] ∧
    ∃ b, (Arr3fCollection.box
        (⟨[⟨0, 0, 0⟩, ⟨2, 0, 0⟩, ⟨0, 2, 0⟩], none⟩ : PointCollection ℚ)).1 = some b ∧
      b.isEmpty = false ∧ ∀ i : Fin 3,
        ((Arr3fCollection.vertices
            (⟨[⟨0, 0, 0⟩, ⟨2, 0, 0⟩, ⟨0, 2, 0⟩], none⟩ : PointCollection ℚ)).map
              (fun p => p.get i)).minimum = ((b.min.get i : ℚ) : WithTop ℚ) ∧
        ((Arr3fCollection.vertices
            (⟨[⟨0, 0, 0⟩, ⟨2, 0, 0⟩, ⟨0, 2, 0⟩], none⟩ : PointCollection ℚ)).map
              (fun p => p.get i)).maximum = ((b.max.get i : ℚ) : WithBot ℚ) :=
  ⟨rfl, by simp [Arr3fCollection.vertices],
    box_first_bounds.1 _ rfl (by simp [Arr3fCollection.vertices])⟩

/-- C8, evaluated where it fails: a `PointCollection` that received (1,1,1),
was asked for its `box()` and then lost the point by `pop_back` holds zero
elements and has `vertex_count() == 0`, yet its `box()` is the cached,
non-empty box with center (1,1,1). -/
theorem empty_collection_stale_box :
    ((Arr3fCollection.box ((⟨[], none⟩ : PointCollection ℚ).vectorOp
        (VectorOp.push_back ⟨1, 1, 1⟩))).2.vectorOp VectorOp.pop_back).elems = [] ∧
    Arr3fCollection.vertex_count
      ((Arr3fCollection.box ((⟨[], none⟩ : PointCollection ℚ).vectorOp
        (VectorOp.push_back ⟨1, 1, 1⟩))).2.vectorOp VectorOp.pop_back) = 0 ∧
    (Arr3fCollection.box
      ((Arr3fCollection.box ((⟨[], none⟩ : PointCollection ℚ).vectorOp
        (VectorOp.push_back ⟨1, 1, 1⟩))).2.vectorOp VectorOp.pop_back)).1
      = some ⟨⟨1, 1, 1⟩, ⟨1, 1, 1⟩, false⟩ ∧
    (⟨⟨1, 1, 1⟩, ⟨1, 1, 1⟩, false⟩ : Box ℚ).isEmpty = false ∧
    (⟨⟨1, 1, 1⟩, ⟨1, 1, 1⟩, false⟩ : Box ℚ).center = ⟨1, 1, 1⟩ := by
  refine ⟨by decide, by decide, by decide, by decide, ?_⟩
  norm_num [Box.center]

/-- C8 as amended: for every collection variant holding zero elements whose
cache is still absent, or holds the empty box computed while the collection
held zero elements, `vertex_count() == 0`, and `box()` returns an empty box
with center (0,0,0). -/
theorem empty_collection_spec (w : Nat) :
    (∀ c : Arr3fCollection α, c.elems = [] → (c.bbox = none ∨ c.bbox = some Box.new) →
      Arr3fCollection.vertex_count c = 0 ∧
      ∃ b, (Arr3fCollection.box c).1 = some b ∧ b.isEmpty = true ∧ b.center = ⟨0, 0, 0⟩) ∧
    (∀ c : TriangleCollection α, c.elems = [] → (c.bbox = none ∨ c.bbox = some Box.new) →
      TriangleCollection.vertex_count w c = 0 ∧
      ∃ b, (TriangleCollection.box c).1 = some b ∧ b.isEmpty = true ∧ b.center = ⟨0, 0, 0⟩) ∧
    (∀ c : SegmentCollection α, c.elems = [] → (c.bbox = none ∨ c.bbox = some Box.new) →
      SegmentCollection.vertex_count w c = 0 ∧
      ∃ b, (SegmentCollection.box c).1 = some b ∧ b.isEmpty = true ∧ b.center = ⟨0, 0, 0⟩) ∧
    (∀ c : LineStringCollection α, c.elems = [] → (c.bbox = none ∨ c.bbox = some Box.new) →
      LineStringCollection.vertex_count w c = 0 ∧
      ∃ b, (LineStringCollection.box c).1 = some b ∧ b.isEmpty = true ∧
        b.center = ⟨0, 0, 0⟩) ∧
    (∀ c : LinearRingCollection α, c.elems = [] → (c.bbox = none ∨ c.bbox = some Box.new) →
      LinearRingCollection.vertex_count w c = 0 ∧
      ∃ b, (LinearRingCollection.box c).1 = some b ∧ b.isEmpty = true ∧
        b.center = ⟨0, 0, 0⟩) := by
  refine ⟨fun c he hb => ⟨?_, Box.new, ?_, rfl, Box.center_new⟩,
    fun c he hb => ⟨?_, Box.new, ?_, rfl, Box.center_new⟩,
    fun c he hb => ⟨?_, Box.new, ?_, rfl, Box.center_new⟩,
    fun c he hb => ⟨?_, Box.new, ?_, rfl, Box.center_new⟩,
    fun c he hb => ⟨?_, Box.new, ?_, rfl, Box.center_new⟩⟩
  · simp [Arr3fCollection.vertex_count, GeometryCollection.size, he]
  · rcases hb with hb | hb
    · rw [Arr3fCollection.box_first_arr3f c hb, Arr3fCollection.vertices, he, Box.add_vec3f_nil]
    · exact congrArg Prod.fst (GeometryCollection.box_of_some _ c _ hb)
  · simp [TriangleCollection.vertex_count, GeometryCollection.size, size_t_wrap, he]
  · rcases hb with hb | hb
    · rw [TriangleCollection.box_first_triangle c hb, TriangleCollection.vertices, he]
      rfl
    · exact congrArg Prod.fst (GeometryCollection.box_of_some _ c _ hb)
  · simp [SegmentCollection.vertex_count, GeometryCollection.size, size_t_wrap, he]
  · rcases hb with hb | hb
    · rw [SegmentCollection.box_first_segment c hb, SegmentCollection.vertices, he]
      rfl
    · exact congrArg Prod.fst (GeometryCollection.box_of_some _ c _ hb)
  · simp [LineStringCollection.vertex_count, he]
  · rcases hb with hb | hb
    · rw [LineStringCollection.box_first_line_string c hb, LineStringCollection.vertices, he]
      rfl
    · exact congrArg Prod.fst (GeometryCollection.box_of_some _ c _ hb)
  · simp [LinearRingCollection.vertex_count, he]
  · rcases hb with hb | hb
    · rw [LinearRingCollection.box_first_linear_ring c hb, LinearRingCollection.vertices, he]
      rfl
    · exact congrArg Prod.fst (GeometryCollection.box_of_some _ c _ hb)

/-- Witness of C8 as amended: a new, empty `PointCollection`. -/
theorem empty_collection_spec_witness :
    (⟨[], none⟩ : PointCollection ℚ).elems = [] ∧
    ((⟨[], none⟩ : PointCollection ℚ).bbox = none ∨
      (⟨[], none⟩ : PointCollection ℚ).bbox = some Box.new) ∧
    Arr3fCollection.vertex_count (⟨[], none⟩ : PointCollection ℚ) = 0 ∧
    ∃ b, (Arr3fCollection.box (⟨[], none⟩ : PointCollection ℚ)).1 = some b ∧
      b.isEmpty = true ∧ b.center = ⟨0, 0, 0⟩ :=
  ⟨rfl, Or.inl rfl, (empty_collection_spec 64).1 _ rfl (Or.inl rfl)⟩

/-- C9: for every collection variant, once `box()` has returned a box `b`
(the bounds of the vertices present at that time when the cache was absent),
any sequence of `push_back`, `insert`, `pop_back`, `erase`, `clear` leaves
the cached box equal to `b`, and a later `box()` returns `b` again, not the
bounds of the current elements: after (0,0,0), `box()`, `push_back((1,1,1))`
the call returns min = max = (0,0,0) although the current elements span
(0,0,0)..(1,1,1). -/
theorem box_stale_after_mutation :
    (∀ (c : Arr3fCollection α) (ops : List (VectorOp _)), ∃ b, (Arr3fCollection.box c).1 = some b ∧
      (c.bbox = none → b = (Box.new : Box α).add_vec3f (Arr3fCollection.vertices c)) ∧
      ((Arr3fCollection.box c).2.vectorOps ops).bbox = some b ∧
      Arr3fCollection.box ((Arr3fCollection.box c).2.vectorOps ops)
        = (some b, (Arr3fCollection.box c).2.vectorOps ops)) ∧
    (∀ (c : TriangleCollection α) (ops : List (VectorOp _)), ∃ b, (TriangleCollection.box c).1 = some b ∧
      (c.bbox = none → b = (Box.new : Box α).add_vec3f (TriangleCollection.vertices c)) ∧
      ((TriangleCollection.box c).2.vectorOps ops).bbox = some b ∧
      TriangleCollection.box ((TriangleCollection.box c).2.vectorOps ops)
        = (some b, (TriangleCollection.box c).2.vectorOps ops)) ∧
    (∀ (c : SegmentCollection α) (ops : List (VectorOp _)), ∃ b, (SegmentCollection.box c).1 = some b ∧
      (c.bbox = none → b = (Box.new : Box α).add_vec3f (SegmentCollection.vertices c)) ∧
      ((SegmentCollection.box c).2.vectorOps ops).bbox = some b ∧
      SegmentCollection.box ((SegmentCollection.box c).2.vectorOps ops)
        = (some b, (SegmentCollection.box c).2.vectorOps ops)) ∧
    (∀ (c : LineStringCollection α) (ops : List (VectorOp _)), ∃ b, (LineStringCollection.box c).1 = some b ∧
      (c.bbox = none → b = (Box.new : Box α).add_vec3f (LineStringCollection.vertices c)) ∧
      ((LineStringCollection.box c).2.vectorOps ops).bbox = some b ∧
      LineStringCollection.box ((LineStringCollection.box c).2.vectorOps ops)
        = (some b, (LineStringCollection.box c).2.vectorOps ops)) ∧
    (∀ (c : LinearRingCollection α) (ops : List (VectorOp _)), ∃ b, (LinearRingCollection.box c).1 = some b ∧
      (c.bbox = none → b = (Box.new : Box α).add_vec3f (LinearRingCollection.vertices c)) ∧
      ((LinearRingCollection.box c).2.vectorOps ops).bbox = some b ∧
      LinearRingCollection.box ((LinearRingCollection.box c).2.vectorOps ops)
        = (some b, (LinearRingCollection.box c).2.vectorOps ops)) ∧
    ((Arr3fCollection.box ((Arr3fCollection.box
        (⟨[⟨0, 0, 0⟩], none⟩ : PointCollection α)).2.vectorOps
          [VectorOp.push_back ⟨1, 1, 1⟩])).1 = some ⟨⟨0, 0, 0⟩, ⟨0, 0, 0⟩, false⟩ ∧
      ((Arr3fCollection.box
        (⟨[⟨0, 0, 0⟩], none⟩ : PointCollection α)).2.vectorOps
          [VectorOp.push_back ⟨1, 1, 1⟩]).elems = [⟨0, 0, 0⟩, ⟨1, 1, 1⟩] ∧
      (Box.new : Box α).add_vec3f [⟨0, 0, 0⟩, ⟨1, 1, 1⟩]
        = ⟨⟨0, 0, 0⟩, ⟨1, 1, 1⟩, false⟩) := by
  refine ⟨fun c ops => ?_, fun c ops => ?_, fun c ops => ?_, fun c ops => ?_,
    fun c ops => ?_, ?_, ?_, ?_⟩
  · obtain ⟨b, h1, h2⟩ := Arr3fCollection.box_returns_arr3f c
    refine ⟨b, h1, fun hn => ?_, GeometryCollection.box_after_vectorOps _ c b ops h2⟩
    rw [Arr3fCollection.box_first_arr3f c hn] at h1
    exact (Option.some.inj h1).symm
  · obtain ⟨b, h1, h2⟩ := TriangleCollection.box_returns_triangle c
    refine ⟨b, h1, fun hn => ?_, GeometryCollection.box_after_vectorOps _ c b ops h2⟩
    rw [TriangleCollection.box_first_triangle c hn] at h1
    exact (Option.some.inj h1).symm
  · obtain ⟨b, h1, h2⟩ := SegmentCollection.box_returns_segment c
    refine ⟨b, h1, fun hn => ?_, GeometryCollection.box_after_vectorOps _ c b ops h2⟩
    rw [SegmentCollection.box_first_segment c hn] at h1
    exact (Option.some.inj h1).symm
  · obtain ⟨b, h1, h2⟩ := LineStringCollection.box_returns_line_string c
    refine ⟨b, h1, fun hn => ?_, GeometryCollection.box_after_vectorOps _ c b ops h2⟩
    rw [LineStringCollection.box_first_line_string c hn] at h1
    exact (Option.some.inj h1).symm
  · obtain ⟨b, h1, h2⟩ := LinearRingCollection.box_returns_linear_ring c
    refine ⟨b, h1, fun hn => ?_, GeometryCollection.box_after_vectorOps _ c b ops h2⟩
    rw [LinearRingCollection.box_first_linear_ring c hn] at h1
    exact (Option.some.inj h1).symm
  · simp [Arr3fCollection.box, GeometryCollection.box, Arr3fCollection.compute_box,
      GeometryCollection.vectorOps, GeometryCollection.vectorOp, Box.add_vec3f, Box.add_arr3f,
      Box.add, Box.new, Box.clear, arr3f.fill, std_min_eq_min, std_max_eq_max]
  · simp [Arr3fCollection.box, GeometryCollection.box, Arr3fCollection.compute_box,
      GeometryCollection.vectorOps, GeometryCollection.vectorOp]
  · simp [Box.add_vec3f, Box.add_arr3f, Box.add, Box.new, Box.clear, arr3f.fill,
      std_min_eq_min, std_max_eq_max]

/-- Witness of C9: the point collection (0,0,0), then `push_back((1,1,1))`. -/
theorem box_stale_after_mutation_witness :
    (⟨[⟨0, 0, 0⟩], none⟩ : PointCollection ℚ).bbox = none ∧
    ∃ b, (Arr3fCollection.box (⟨[⟨0, 0, 0⟩], none⟩ : PointCollection ℚ)).1 = some b ∧
      ((⟨[⟨0, 0, 0⟩], none⟩ : PointCollection ℚ).bbox = none →
        b = (Box.new : Box ℚ).add_vec3f
          (Arr3fCollection.vertices (⟨[⟨0, 0, 0⟩], none⟩ : PointCollection ℚ))) ∧
      ((Arr3fCollection.box (⟨[⟨0, 0, 0⟩], none⟩ : PointCollection ℚ)).2.vectorOps
        [VectorOp.push_back ⟨1, 1, 1⟩]).bbox = some b ∧
      Arr3fCollection.box ((Arr3fCollection.box
          (⟨[⟨0, 0, 0⟩], none⟩ : PointCollection ℚ)).2.vectorOps [VectorOp.push_back ⟨1, 1, 1⟩])
        = (some b, (Arr3fCollection.box (⟨[⟨0, 0, 0⟩], none⟩ : PointCollection ℚ)).2.vectorOps
            [VectorOp.push_back ⟨1, 1, 1⟩]) :=
  ⟨rfl, box_stale_after_mutation.1 _ [VectorOp.push_back ⟨1, 1, 1⟩]⟩

/-- C14: a `LinearRingCollection` and a `LineStringCollection` holding the
same point sequences have the same `vertex_count()`, which is the sum of the
sub-sequence lengths when that is below the `size_t` range `2 ^ w`, and, from
the same cache state, `box()` returns the same box for both; with the cache
absent both return the box computed from those sequences. -/
theorem linear_ring_collection_same_as_line_string (w : Nat) :
    (∀ (cr : LinearRingCollection α) (cs : LineStringCollection α),
      cr.elems.map (fun vec => vec.elems) = cs.elems.map (fun vec => vec.elems) →
      LinearRingCollection.vertex_count w cr = LineStringCollection.vertex_count w cs ∧
      (cr.bbox = cs.bbox →
        (LinearRingCollection.box cr).1 = (LineStringCollection.box cs).1) ∧
      (cr.bbox = none → cs.bbox = none →
        ∃ b, (LinearRingCollection.box cr).1 = some b ∧
          (LineStringCollection.box cs).1 = some b)) ∧
    (∀ cr : LinearRingCollection α,
      (cr.elems.map (fun vec => vec.elems.length)).sum < 2 ^ w →
      LinearRingCollection.vertex_count w cr
        = (cr.elems.map (fun vec => vec.elems.length)).sum) := by
  refine ⟨fun cr cs h => ⟨nested_vertex_count_eq_of_same_points w cr cs h, fun hb => ?_,
    fun hr hs => ⟨_, LinearRingCollection.box_first_linear_ring cr hr, ?_⟩⟩, fun cr h => ?_⟩
  · cases hr : cr.bbox with
    | none =>
      rw [LinearRingCollection.box_first_linear_ring cr hr,
        LineStringCollection.box_first_line_string cs (hb ▸ hr),
        nested_vertices_eq_of_same_points cr cs h]
    | some b =>
      have hs : cs.bbox = some b := hb ▸ hr
      exact (congrArg Prod.fst (GeometryCollection.box_of_some _ cr b hr)).trans
        (congrArg Prod.fst (GeometryCollection.box_of_some _ cs b hs)).symm
  · rw [LineStringCollection.box_first_line_string cs hs,
      nested_vertices_eq_of_same_points cr cs h]
  · have := foldl_size_t_wrap w (fun vec : LinearRing α => vec.elems.length) cr.elems 0
      (by simpa using h)
    simpa [LinearRingCollection.vertex_count, GeometryCollection.size] using this

/-- Witness of C14: the sub-sequences [(0,0,0), (1,0,0)] and [(0,1,0)], the
rings carrying a cached box of their own, the line strings none. -/
theorem linear_ring_collection_same_as_line_string_witness :
    (⟨[⟨[⟨0, 0, 0⟩, ⟨1, 0, 0⟩], some Box.new⟩, ⟨[⟨0, 1, 0⟩], none⟩], none⟩ :
        LinearRingCollection ℚ).elems.map (fun vec => vec.elems)
      = (⟨[⟨[⟨0, 0, 0⟩, ⟨1, 0, 0⟩], none⟩, ⟨[⟨0, 1, 0⟩], none⟩], none⟩ :
        LineStringCollection ℚ).elems.map (fun vec => vec.elems) ∧
    LinearRingCollection.vertex_count 64
        (⟨[⟨[⟨0, 0, 0⟩, ⟨1, 0, 0⟩], some Box.new⟩, ⟨[⟨0, 1, 0⟩], none⟩], none⟩ :
          LinearRingCollection ℚ)
      = LineStringCollection.vertex_count 64
        (⟨[⟨[⟨0, 0, 0⟩, ⟨1, 0, 0⟩], none⟩, ⟨[⟨0, 1, 0⟩], none⟩], none⟩ :
          LineStringCollection ℚ) :=
  ⟨rfl, ((linear_ring_collection_same_as_line_string 64).1 _ _ rfl).1⟩

/-- C15: for every collection variant whose cache is absent and whose
vertices number fewer than `2 ^ w` (the `size_t` range), `box().isEmpty()` is
true if and only if `vertex_count() == 0`; a `LineStringCollection` made only
of empty sub-sequences yields an empty box; adding an empty point sequence to
a `Box` leaves its emptiness flag, and the box, unchanged. -/
theorem box_empty_iff_no_vertex (w : Nat) :
    (∀ c : Arr3fCollection α, c.bbox = none →
      ∃ b, (Arr3fCollection.box c).1 = some b ∧
        (b.isEmpty = true ↔ Arr3fCollection.vertex_count c = 0)) ∧
    (∀ c : TriangleCollection α, c.bbox = none → (TriangleCollection.vertices c).length < 2 ^ w →
      ∃ b, (TriangleCollection.box c).1 = some b ∧
        (b.isEmpty = true ↔ TriangleCollection.vertex_count w c = 0)) ∧
    (∀ c : SegmentCollection α, c.bbox = none → (SegmentCollection.vertices c).length < 2 ^ w →
      ∃ b, (SegmentCollection.box c).1 = some b ∧
        (b.isEmpty = true ↔ SegmentCollection.vertex_count w c = 0)) ∧
    (∀ c : LineStringCollection α, c.bbox = none → (LineStringCollection.vertices c).length < 2 ^ w →
      ∃ b, (LineStringCollection.box c).1 = some b ∧
        (b.isEmpty = true ↔ LineStringCollection.vertex_count w c = 0)) ∧
    (∀ c : LinearRingCollection α, c.bbox = none → (LinearRingCollection.vertices c).length < 2 ^ w →
      ∃ b, (LinearRingCollection.box c).1 = some b ∧
        (b.isEmpty = true ↔ LinearRingCollection.vertex_count w c = 0)) ∧
    (∀ c : LineStringCollection α, c.bbox = none → (∀ vec ∈ c.elems, vec.elems = []) →
      ∃ b, (LineStringCollection.box c).1 = some b ∧ b.isEmpty = true) ∧
    (∀ b : Box α, (b.add_vec3f []).isEmpty = b.isEmpty ∧ b.add_vec3f [] = b) := by
  refine ⟨fun c h => ?_, fun c h hw => ?_, fun c h hw => ?_, fun c h hw => ?_,
    fun c h hw => ?_, fun c h he => ?_, fun b => ⟨rfl, rfl⟩⟩
  · refine ⟨_, Arr3fCollection.box_first_arr3f c h, ?_⟩
    rw [Box.new_add_vec3f_isEmpty_iff, Arr3fCollection.vertices, Arr3fCollection.vertex_count,
      GeometryCollection.size, List.length_eq_zero]
  · refine ⟨_, TriangleCollection.box_first_triangle c h, ?_⟩
    rw [Box.new_add_vec3f_isEmpty_iff, TriangleCollection.vertex_count_eq_length_triangle w c hw,
      List.length_eq_zero]
  · refine ⟨_, SegmentCollection.box_first_segment c h, ?_⟩
    rw [Box.new_add_vec3f_isEmpty_iff, SegmentCollection.vertex_count_eq_length_segment w c hw,
      List.length_eq_zero]
  · refine ⟨_, LineStringCollection.box_first_line_string c h, ?_⟩
    rw [Box.new_add_vec3f_isEmpty_iff, LineStringCollection.vertex_count_eq_length_line_string w c hw,
      List.length_eq_zero]
  · refine ⟨_, LinearRingCollection.box_first_linear_ring c h, ?_⟩
    rw [Box.new_add_vec3f_isEmpty_iff, LinearRingCollection.vertex_count_eq_length_linear_ring w c hw,
      List.length_eq_zero]
  · refine ⟨_, LineStringCollection.box_first_line_string c h, ?_⟩
    rw [Box.new_add_vec3f_isEmpty_iff, LineStringCollection.vertices, List.flatMap_eq_nil_iff]
    exact he

/-- Witness of C15: a `LineStringCollection` of two empty line strings. -/
theorem box_empty_iff_no_vertex_witness :
    (⟨[⟨[], none⟩, ⟨[], none⟩], none⟩ : LineStringCollection ℚ).bbox = none ∧
    (LineStringCollection.vertices
      (⟨[⟨[], none⟩, ⟨[], none⟩], none⟩ : LineStringCollection ℚ)).length < 2 ^ 64 ∧
    ∃ b, (LineStringCollection.box
        (⟨[⟨[], none⟩, ⟨[], none⟩], none⟩ : LineStringCollection ℚ)).1 = some b ∧
      (b.isEmpty = true ↔ LineStringCollection.vertex_count 64
        (⟨[⟨[], none⟩, ⟨[], none⟩], none⟩ : LineStringCollection ℚ) = 0) :=
  ⟨rfl, by simp [LineStringCollection.vertices],
    (box_empty_iff_no_vertex 64).2.2.2.1 _ rfl (by simp [LineStringCollection.vertices])⟩

/-- C7, evaluated where it fails: for the `PointCollection`
[(1,0,0), (NaN,0,0)] the first `box()` returns min = max = (NaN,0,0), and
`min()[0]` is not `<=` the coordinate of any vertex, nor is any vertex
coordinate `<=` `max()[0]`; the same two vertices in the other order give
min = max = (1,0,0), so the bounds are not a function of the vertices. -/
theorem box_first_bounds_fail_at_nan :
    (⟨[⟨float.val 1, 0, 0⟩, ⟨float.nan, 0, 0⟩], none⟩ : PointCollection (float ℚ)).bbox = none ∧
    Arr3fCollection.vertices
      (⟨[⟨float.val 1, 0, 0⟩, ⟨float.nan, 0, 0⟩], none⟩ : PointCollection (float ℚ)) ≠ [] ∧
    (Arr3fCollection.box
      (⟨[⟨float.val 1, 0, 0⟩, ⟨float.nan, 0, 0⟩], none⟩ : PointCollection (float ℚ))).1
      = some ⟨⟨float.nan, 0, 0⟩, ⟨float.nan, 0, 0⟩, false⟩ ∧
    (∀ p ∈ Arr3fCollection.vertices
        (⟨[⟨float.val 1, 0, 0⟩, ⟨float.nan, 0, 0⟩], none⟩ : PointCollection (float ℚ)),
      ¬ ((⟨⟨float.nan, 0, 0⟩, ⟨float.nan, 0, 0⟩, false⟩ : Box (float ℚ)).min.get 0 ≤ p.get 0) ∧
      ¬ (p.get 0 ≤ (⟨⟨float.nan, 0, 0⟩, ⟨float.nan, 0, 0⟩, false⟩ : Box (float ℚ)).max.get 0)) ∧
    (Arr3fCollection.box
      (⟨[⟨float.nan, 0, 0⟩, ⟨float.val 1, 0, 0⟩], none⟩ : PointCollection (float ℚ))).1
      = some ⟨⟨float.val 1, 0, 0⟩, ⟨float.val 1, 0, 0⟩, false⟩ := by
  decide

end CollectionClaims

section CountClaims
variable {α : Type}

/-- C6: `vertex_count()` is `3n` for a `TriangleCollection` with `n` elements,
`2n` for a `SegmentCollection`, `n` for a `PointCollection` / `LineString` /
`LinearRing`, and the sum of the sub-sequence lengths for a
`LineStringCollection` (lengths 3 and 5 give 8), whenever the count is below
the `size_t` range `2 ^ w`. -/
theorem vertex_count_spec (w : Nat) :
    (∀ c : TriangleCollection α, 3 * c.elems.length < 2 ^ w →
      TriangleCollection.vertex_count w c = 3 * c.elems.length) ∧
    (∀ c : SegmentCollection α, 2 * c.elems.length < 2 ^ w →
      SegmentCollection.vertex_count w c = 2 * c.elems.length) ∧
    (∀ c : Arr3fCollection α, Arr3fCollection.vertex_count c = c.elems.length) ∧
    (∀ c : LineStringCollection α, (c.elems.map (fun vec => vec.elems.length)).sum < 2 ^ w →
      LineStringCollection.vertex_count w c
        = (c.elems.map (fun vec => vec.elems.length)).sum) ∧
    (∀ c : LineStringCollection α, c.elems.map (fun vec => vec.elems.length) = [3, 5] →
      8 < 2 ^ w → LineStringCollection.vertex_count w c = 8) := by
  have hls : ∀ c : LineStringCollection α,
      (c.elems.map (fun vec => vec.elems.length)).sum < 2 ^ w →
      LineStringCollection.vertex_count w c
        = (c.elems.map (fun vec => vec.elems.length)).sum := by
    intro c h
    have := foldl_size_t_wrap w (fun vec : LineString α => vec.elems.length) c.elems 0
      (by simpa using h)
    simpa [LineStringCollection.vertex_count, GeometryCollection.size] using this
  refine ⟨fun c h => ?_, fun c h => ?_, fun c => rfl, hls, fun c h8 hw => ?_⟩
  · unfold TriangleCollection.vertex_count size_t_wrap GeometryCollection.size
    rw [Nat.mod_eq_of_lt (by omega)]
    omega
  · unfold SegmentCollection.vertex_count size_t_wrap GeometryCollection.size
    rw [Nat.mod_eq_of_lt (by omega)]
    omega
  · have := hls c (by rw [h8]; simpa using hw)
    rw [this, h8]
    rfl

/-- Witness of C6: one triangle, 64-bit `size_t`. -/
theorem vertex_count_spec_witness :
    3 * (⟨[⟨⟨0, 0, 0⟩, ⟨1, 0, 0⟩, ⟨0, 1, 0⟩⟩], none⟩ : TriangleCollection ℚ).elems.length < 2 ^ 64 ∧
    TriangleCollection.vertex_count 64
        (⟨[⟨⟨0, 0, 0⟩, ⟨1, 0, 0⟩, ⟨0, 1, 0⟩⟩], none⟩ : TriangleCollection ℚ)
      = 3 * (⟨[⟨⟨0, 0, 0⟩, ⟨1, 0, 0⟩, ⟨0, 1, 0⟩⟩], none⟩ : TriangleCollection ℚ).elems.length :=
  ⟨by simp, (vertex_count_spec 64).1 _ (by simp)⟩

end CountClaims

end geoflow
